import Mathlib

/-!
Verification of the API key rotation and multi-step generation layer of a
website-generation service (`src/services/geminiService.ts`, second revision
of the module: the one defining `callGeminiAPI`, `parseJsonResponse` and the
multi-step `generateWebsite`).

The TypeScript module is shallowly embedded:
* the module-level mutable selector state (`API_KEYS`, `failedKeys`,
  `currentKeyIndex`, `stickyKeyIndex`) becomes an explicit `SelectorState`
  threaded through every operation;
* `Date.now()` becomes an explicit `now : Nat` parameter (milliseconds);
* the network call to the provider becomes an oracle
  `provider : Nat → Except String String`, indexed by how many provider
  calls have been issued so far; a thrown JS exception is `Except.error`;
* JS strings are Lean `String`s (`List Char` for the JSON normalizer);
* each `async` step returns `Except String α × GenState` — `Except.error`
  models an exception escaping the function, the extra state records the
  selector state, the number of provider network calls issued, the prompts
  handed to the invoker, and the backoff delays waited.
-/

namespace Gemini

-- ==================== Data model (`types.ts`) ====================

inductive Language where
  | vi
  | en
deriving DecidableEq

/-- `'landing' | 'website'` -/
inductive WebsiteType where
  | landing
  | website
deriving DecidableEq

def languageCode : Language → String
  | Language.vi => "vi"
  | Language.en => "en"

/-- `GeneratedFile` from `types.ts`; the `type` tag is a plain string at
runtime (TS union types are erased and never checked). -/
structure GeneratedFile where
  path : String
  content : String
  type : String
deriving DecidableEq

structure SeoData where
  title : String
  description : String
  keywords : String
deriving DecidableEq

structure WebsiteData where
  files : List GeneratedFile
  seo : SeoData
deriving DecidableEq

/-- JS `String.prototype.slice(0, n)`. -/
def strSlice (s : String) (n : Nat) : String :=
  ⟨s.data.take n⟩

-- ==================== Key rotation system ====================

def FAILED_KEY_RESET_MS : Nat := 5 * 60 * 1000

def MAX_RETRIES : Nat := 3

structure FailedKeyInfo where
  failedAt : Nat
  errorCount : Nat
deriving DecidableEq

/-- JS `Map.get` on the insertion-ordered association list. -/
def mapGet (m : List (Nat × FailedKeyInfo)) (i : Nat) : Option FailedKeyInfo :=
  match m with
  | [] => none
  | e :: rest => if e.1 = i then some e.2 else mapGet rest i

/-- JS `Map.has`. -/
def hasKey (m : List (Nat × FailedKeyInfo)) (i : Nat) : Bool :=
  (mapGet m i).isSome

/-- JS `Map.set`: updates an existing key in place, otherwise appends. -/
def mapSet (m : List (Nat × FailedKeyInfo)) (i : Nat) (v : FailedKeyInfo) :
    List (Nat × FailedKeyInfo) :=
  match m with
  | [] => [(i, v)]
  | e :: rest => if e.1 = i then (i, v) :: rest else e :: mapSet rest i v

/-- The module state: `API_KEYS`, `failedKeys`, `currentKeyIndex`,
`stickyKeyIndex`. -/
structure SelectorState where
  apiKeys : List String
  failedKeys : List (Nat × FailedKeyInfo)
  currentKeyIndex : Nat
  stickyKeyIndex : Nat
deriving DecidableEq

/-- The cooldown sweep at the top of `getNextApiKey`: delete every entry
with `now - info.failedAt > FAILED_KEY_RESET_MS`. -/
def sweepExpired (now : Nat) (m : List (Nat × FailedKeyInfo)) :
    List (Nat × FailedKeyInfo) :=
  m.filter (fun e => !decide (now - e.2.failedAt > FAILED_KEY_RESET_MS))

/-- The round-robin `while (attempts < API_KEYS.length)` scan: starting at
`cursor`, find the first index without a health record, wrapping mod `n`,
for at most `fuel` steps. -/
def scanLoop (m : List (Nat × FailedKeyInfo)) (n : Nat) : Nat → Nat → Option Nat
  | _, 0 => none
  | cursor, fuel + 1 =>
    if hasKey m cursor then scanLoop m n ((cursor + 1) % n) fuel
    else some cursor

/-- `getNextApiKey` (lines 372-403): sweep expired records, prefer the sticky
key, else round-robin scan, else full-pool reset. Returns the selected
`(key, index)` (or `none` for an empty pool) and the updated state. -/
def getNextApiKey (now : Nat) (s : SelectorState) :
    Option (String × Nat) × SelectorState :=
  if s.apiKeys.length = 0 then (none, s)
  else
    let fk := sweepExpired now s.failedKeys
    if hasKey fk s.stickyKeyIndex = false then
      (some (s.apiKeys.getD s.stickyKeyIndex "", s.stickyKeyIndex),
       { s with failedKeys := fk })
    else
      match scanLoop fk s.apiKeys.length s.currentKeyIndex s.apiKeys.length with
      | some j =>
        (some (s.apiKeys.getD j "", j),
         { s with failedKeys := fk, stickyKeyIndex := j,
                  currentKeyIndex := (j + 1) % s.apiKeys.length })
      | none =>
        (some (s.apiKeys.getD 0 "", 0),
         { s with failedKeys := [], stickyKeyIndex := 0, currentKeyIndex := 0 })

/-- `markKeyAsFailed` (lines 405-411). -/
def markKeyAsFailed (now : Nat) (i : Nat) (s : SelectorState) : SelectorState :=
  { s with
    failedKeys :=
      mapSet s.failedKeys i
        ⟨now, ((mapGet s.failedKeys i).map FailedKeyInfo.errorCount).getD 0 + 1⟩,
    currentKeyIndex := (i + 1) % s.apiKeys.length }


-- ==================== API invoker ====================

/-- Result of one `callGeminiAPI` invocation: the returned text or the
escaping exception, the selector state, the total number of provider
network calls issued so far, and the backoff delays (ms) waited inside
this invocation, in order. -/
structure CallOut where
  result : Except String String
  sel : SelectorState
  calls : Nat
  delays : List Nat

/-- The `for (let attempt = 0; attempt < MAX_RETRIES; attempt++)` loop of
`callGeminiAPI` (lines 435-469). `remaining` counts the iterations left
(`MAX_RETRIES - attempt`); the provider oracle is consulted at the current
call counter; after a failed non-final attempt the loop waits
`1000 * (attempt + 1)` ms. -/
def callGeminiLoop (provider : Nat → Except String String) (now : Nat) :
    Nat → Nat → Option String → SelectorState → Nat → List Nat → CallOut
  | _, 0, lastError, s, calls, delays =>
    ⟨Except.error (lastError.getD "All API retries exhausted"), s, calls, delays⟩
  | attempt, remaining + 1, _lastError, s, calls, delays =>
    match getNextApiKey now s with
    | (none, s1) => ⟨Except.error "No API keys available", s1, calls, delays⟩
    | (some keyInfo, s1) =>
      match provider calls with
      | Except.ok text => ⟨Except.ok text, s1, calls + 1, delays⟩
      | Except.error e =>
        callGeminiLoop provider now (attempt + 1) remaining (some e)
          (markKeyAsFailed now keyInfo.2 s1) (calls + 1)
          (if 1 ≤ remaining then delays ++ [1000 * (attempt + 1)] else delays)

/-- `callGeminiAPI` (lines 435-469). -/
def callGeminiAPI (provider : Nat → Except String String) (now : Nat)
    (s : SelectorState) (calls : Nat) : CallOut :=
  callGeminiLoop provider now 0 MAX_RETRIES none s calls []

-- ==================== Response normalizer (JSON) ====================

/-- Whitespace characters recognized by the trimming/skipping steps. -/
def isJsWs (c : Char) : Bool :=
  c = ' ' || c = '\n' || c = '\t' || c = '\r'

def skipWs (cs : List Char) : List Char := cs.dropWhile isJsWs

/-- JS `String.prototype.trim` on the character list. -/
def jsTrim (cs : List Char) : List Char :=
  ((cs.dropWhile isJsWs).reverse.dropWhile isJsWs).reverse

/-- Parsed JSON structure. String/key contents and number lexemes are kept
as their raw character sequences. -/
inductive Json where
  | jnull
  | jbool (b : Bool)
  | jnum (lexeme : List Char)
  | jstr (content : List Char)
  | jarr (elems : List Json)
  | jobj (members : List (List Char × Json))

/-- Which production the recursive-descent JSON parser is in. -/
inductive PTag where
  | val
  | strRest
  | arrRest
  | objRest
  | elems
  | membs
deriving DecidableEq

def isDigitC (c : Char) : Bool := '0' ≤ c && c ≤ '9'

def isNumC (c : Char) : Bool :=
  isDigitC c || c = '-' || c = '+' || c = '.' || c = 'e' || c = 'E'

/-- Fuel-indexed recursive-descent JSON parser; each production returns the
parsed value and the unconsumed remainder. `strRest` parses the body of a
string after the opening quote (escape pairs kept raw), `arrRest`/`objRest`
parse after the opening bracket (leading whitespace already skipped),
`elems`/`membs` parse non-empty element/member lists. -/
def parseF : PTag → Nat → List Char → Option (Json × List Char)
  | _, 0, _ => none
  | PTag.val, fuel + 1, cs =>
    match cs with
    | [] => none
    | c :: rest =>
      if c = '"' then parseF PTag.strRest fuel rest
      else if c = '[' then parseF PTag.arrRest fuel (skipWs rest)
      else if c = '{' then parseF PTag.objRest fuel (skipWs rest)
      else if c = 't' then
        if ['r', 'u', 'e'].isPrefixOf rest then
          some (Json.jbool true, rest.drop 3)
        else none
      else if c = 'f' then
        if ['a', 'l', 's', 'e'].isPrefixOf rest then
          some (Json.jbool false, rest.drop 4)
        else none
      else if c = 'n' then
        if ['u', 'l', 'l'].isPrefixOf rest then
          some (Json.jnull, rest.drop 3)
        else none
      else if c = '-' || isDigitC c then
        some (Json.jnum (c :: rest.takeWhile isNumC), rest.dropWhile isNumC)
      else none
  | PTag.strRest, fuel + 1, cs =>
    match cs with
    | [] => none
    | c :: rest =>
      if c = '"' then some (Json.jstr [], rest)
      else if c = '\\' then
        match rest with
        | [] => none
        | esc :: rest2 =>
          match parseF PTag.strRest fuel rest2 with
          | some (Json.jstr body, r) => some (Json.jstr (c :: esc :: body), r)
          | _ => none
      else
        match parseF PTag.strRest fuel rest with
        | some (Json.jstr body, r) => some (Json.jstr (c :: body), r)
        | _ => none
  | PTag.arrRest, fuel + 1, cs =>
    match cs with
    | ']' :: rest => some (Json.jarr [], rest)
    | _ => parseF PTag.elems fuel cs
  | PTag.elems, fuel + 1, cs =>
    match parseF PTag.val fuel cs with
    | some (v, r) =>
      match skipWs r with
      | ',' :: r2 =>
        match parseF PTag.elems fuel (skipWs r2) with
        | some (Json.jarr vs, r3) => some (Json.jarr (v :: vs), r3)
        | _ => none
      | ']' :: r2 => some (Json.jarr [v], r2)
      | _ => none
    | none => none
  | PTag.objRest, fuel + 1, cs =>
    match cs with
    | '}' :: rest => some (Json.jobj [], rest)
    | _ => parseF PTag.membs fuel cs
  | PTag.membs, fuel + 1, cs =>
    match cs with
    | '"' :: rest =>
      match parseF PTag.strRest fuel rest with
      | some (Json.jstr key, r) =>
        match skipWs r with
        | ':' :: r2 =>
          match parseF PTag.val fuel (skipWs r2) with
          | some (v, r3) =>
            match skipWs r3 with
            | ',' :: r4 =>
              match parseF PTag.membs fuel (skipWs r4) with
              | some (Json.jobj ms, r5) => some (Json.jobj ((key, v) :: ms), r5)
              | _ => none
            | '}' :: r4 => some (Json.jobj [(key, v)], r4)
            | _ => none
          | none => none
        | _ => none
      | _ => none
    | _ => none

def jsonFuel (cs : List Char) : Nat := 4 * cs.length + 4

/-- `JSON.parse`: trims, parses one value, and requires the input to be
fully consumed. -/
def jsonParse (cs : List Char) : Option Json :=
  match parseF PTag.val (jsonFuel (jsTrim cs)) (jsTrim cs) with
  | some (v, r) => if r = [] then some v else none
  | none => none

def btick : Char := Char.ofNat 96

def fence3 : List Char := [btick, btick, btick]

def fenceJson : List Char := fence3 ++ ['j', 's', 'o', 'n']

/-- `if (jsonStr.startsWith ...)`: drop a leading fenced-code marker. -/
def stripHead (s1 : List Char) : List Char :=
  if fenceJson.isPrefixOf s1 then s1.drop 7
  else if fence3.isPrefixOf s1 then s1.drop 3
  else s1

/-- `if (jsonStr.endsWith ...)`: drop a trailing fenced-code marker. -/
def stripTail (s2 : List Char) : List Char :=
  if fence3.isSuffixOf s2 then s2.take (s2.length - 3) else s2

/-- The fence-stripping part of `parseJsonResponse` (lines 472-478): trim,
drop a leading fenced-code marker, drop a trailing one. -/
def stripFence (text : List Char) : List Char :=
  stripTail (stripHead (jsTrim text))

/-- `parseJsonResponse` (lines 472-478): strip an optional fenced-code
marker, trim, and `JSON.parse` the remainder. -/
def parseJsonResponse (text : List Char) : Option Json :=
  jsonParse (jsTrim (stripFence text))

/-- Characters a JSON value can start with. -/
def startChar (c : Char) : Bool :=
  c = '"' || c = '[' || c = '{' || c = 't' || c = 'f' || c = 'n' ||
    c = '-' || isDigitC c

/-- Characters a parsed JSON value can end with. -/
def goodEnd (c : Char) : Bool :=
  c = '"' || c = ']' || c = '}' || c = 'e' || c = 'l' || isNumC c

-- ==================== Generation pipeline ====================

/-- The per-request `GenerationContext` (lines 423-432). -/
structure GenerationContext where
  prompt : String
  language : Language
  lang : String
  type : WebsiteType
  selectedPages : List String
  selectedOptions : List String
  includeAdmin : Bool
  referenceUrl : Option String
deriving DecidableEq

def optionDescription (opt : String) : String :=
  if opt = "chatbot" then "ü§ñ CHATBOT: Th√™m widget chatbot AI ·ªü g√≥c ph·∫£i m√†n h√¨nh v·ªõi n√∫t m·ªü/ƒë√≥ng"
  else if opt = "newsletter" then "üì∞ NEWSLETTER: Th√™m section form ƒëƒÉng k√Ω nh·∫≠n tin (email input + submit button)"
  else if opt = "partners" then "ü§ù PARTNERS: Th√™m section logo ƒë·ªëi t√°c/kh√°ch h√†ng (6-8 logos)"
  else if opt = "map" then "üìç MAP: Th√™m Google Maps iframe trong ph·∫ßn li√™n h·ªá"
  else if opt = "videoHero" then "üé¨ VIDEO HERO: Hero section c√≥ video background thay v√¨ ·∫£nh"
  else if opt = "stats" then "üìä STATS: Th√™m section s·ªë li·ªáu th·ªëng k√™ v·ªõi animation counter (4 items)"
  else if opt = "awards" then "üèÜ AWARDS: Th√™m section ch·ª©ng ch·ªâ/gi·∫£i th∆∞·ªüng"
  else if opt = "promoPopup" then "üéâ POPUP: Th√™m promotion popup hi·ªÉn th·ªã khi load trang"
  else if opt = "appDownload" then "üì± APP CTA: Th√™m section download app v·ªõi App Store/Play Store buttons"
  else if opt = "liveChat" then "üí¨ LIVE CHAT: Th√™m widget live chat ·ªü g√≥c m√†n h√¨nh"
  else if opt = "multiLang" then "üåê MULTI-LANG: Th√™m language switcher trong header"
  else if opt = "rating" then "‚≠ê RATING: Th√™m star rating component trong testimonials"
  else opt

def optionsBlock (opts : List String) : String :=
  if opts.length > 0 then
    String.intercalate "\n" (opts.map (fun opt => "- " ++ optionDescription opt))
  else "Kh√¥ng c√≥ t√≠nh nƒÉng b·ªï sung"

def htmlStricterSuffix (charCount : Nat) : String :=
  "\n\nCRITICAL: Your previous output was TOO SHORT ("
    ++ toString charCount
    ++ " chars). Generate AT LEAST 10,000 characters of complete HTML code."

def cssStricterSuffix (charCount : Nat) : String :=
  "\n\nCRITICAL: Generate AT LEAST 5,000 characters of CSS code. Previous output was only "
    ++ toString charCount
    ++ " chars."

def jsStricterSuffix (charCount : Nat) : String :=
  "\n\nCRITICAL: Generate AT LEAST 4,000 characters of JavaScript code. Previous output was only "
    ++ toString charCount
    ++ " chars."

def pagePromptText (pageName : String) (ctx : GenerationContext) : String :=
  "You are a WEB DEVELOPER. Create a complete "
    ++ pageName
    ++ ".html page.\n\nWEBSITE CONTEXT: "
    ++ ctx.prompt
    ++ "\nPAGE: "
    ++ pageName
    ++ "\n\nREQUIREMENTS:\n- ALL text in "
    ++ ctx.lang
    ++ "\n- AT LEAST 150 lines of HTML\n- Use Tailwind CSS CDN\n- Include header/nav (same as main site), main content, footer\n- Page-specific content for \""
    ++ pageName
    ++ "\"\n- Link to styles.css and script.js\n- Responsive design\n\nReturn JSON only:\n\x7b\"path\": \""
    ++ pageName
    ++ ".html\", \"content\": \"<!DOCTYPE html>...\", \"type\": \"html\"\x7d"

def seoPromptText (ctx : GenerationContext) : String :=
  "Generate SEO metadata for this website: \""
    ++ ctx.prompt
    ++ "\"\nLanguage: "
    ++ ctx.lang
    ++ "\n\nReturn JSON only:\n\x7b\"title\": \"60 char title\", \"description\": \"160 char description\", \"keywords\": \"keyword1, keyword2, keyword3\"\x7d"

def htmlPromptText (ctx : GenerationContext) : String :=
  "B·∫°n l√† m·ªôt SENIOR FULL-STACK WEB DEVELOPER v·ªõi 15+ nƒÉm kinh nghi·ªám.\n\n=== Y√äU C·∫¶U T·ª™ KH√ÅCH H√ÄNG ===\n\""
    ++ ctx.prompt
    ++ "\"\n\n=== PH√ÇN T√çCH Y√äU C·∫¶U ===\nD·ª±a tr√™n y√™u c·∫ßu tr√™n, h√£y:\n1. X√°c ƒë·ªãnh LO·∫†I H√åNH WEBSITE (d·ªãch v·ª•, s·∫£n ph·∫©m, portfolio, doanh nghi·ªáp...)\n2. X√°c ƒë·ªãnh ƒê·ªêI T∆Ø·ª¢NG KH√ÅCH H√ÄNG M·ª§C TI√äU\n3. X√°c ƒë·ªãnh TONE & MOOD ph√π h·ª£p (chuy√™n nghi·ªáp, th√¢n thi·ªán, sang tr·ªçng, tr·∫ª trung...)\n4. X√°c ƒë·ªãnh M√ÄU S·∫ÆC CH·ª¶ ƒê·∫†O ph√π h·ª£p v·ªõi ng√†nh\n\n=== T√çNH NƒÇNG B·ªî SUNG Y√äU C·∫¶U ===\n"
    ++ optionsBlock ctx.selectedOptions
    ++ "\n\n=== T·∫†O index.html HO√ÄN CH·ªàNH ===\n\nNG√îN NG·ªÆ: To√†n b·ªô n·ªôi dung ph·∫£i b·∫±ng "
    ++ ctx.lang
    ++ "\n\nY√äU C·∫¶U B·∫ÆT BU·ªòC:\n1. TI√äU ƒê·ªÄ & N·ªòI DUNG ph·∫£i LI√äN QUAN TR·ª∞C TI·∫æP ƒë·∫øn: \""
    ++ ctx.prompt
    ++ "\"\n2. KH√îNG d√πng Lorem ipsum - t·∫°o n·ªôi dung TH·ª∞C, C·ª§ TH·ªÇ cho \""
    ++ ctx.prompt
    ++ "\"\n3. Minimum 300+ d√≤ng HTML\n4. Tailwind CSS CDN: https://cdn.tailwindcss.com\n\nC·∫§U TR√öC B·∫ÆT BU·ªòC:\n- Header: Logo v·ªõi t√™n t·ª´ \""
    ++ ctx.prompt
    ++ "\", navigation 5+ links\n- Hero Section: Headline m·∫°nh m·∫Ω v·ªÅ \""
    ++ ctx.prompt
    ++ "\", subheadline, 2 CTAs\n- Features: 6 t√≠nh nƒÉng/l·ª£i √≠ch C·ª§ TH·ªÇ c·ªßa \""
    ++ ctx.prompt
    ++ "\"\n- About: C√¢u chuy·ªán, s·ª© m·ªánh li√™n quan ƒë·∫øn \""
    ++ ctx.prompt
    ++ "\"\n- Services/Products: 4+ d·ªãch v·ª•/s·∫£n ph·∫©m t·ª´ \""
    ++ ctx.prompt
    ++ "\"\n- Testimonials: 3 ƒë√°nh gi√° c·ªßa kh√°ch h√†ng (t√™n, ch·ª©c v·ª•, n·ªôi dung)\n- Stats: 4 con s·ªë ·∫•n t∆∞·ª£ng (v√≠ d·ª•: 500+ kh√°ch h√†ng, 10 nƒÉm kinh nghi·ªám...)\n- CTA Section: K√™u g·ªçi h√†nh ƒë·ªông m·∫°nh m·∫Ω\n- Contact: Form li√™n h·ªá ƒë·∫ßy ƒë·ªß (h·ªç t√™n, email, ƒëi·ªán tho·∫°i, tin nh·∫Øn)\n- Footer: Links, th√¥ng tin li√™n h·ªá, social icons, copyright\n\nK·ª∏ THU·∫¨T:\n- Mobile-first responsive design\n- Semantic HTML5 (header, nav, main, section, article, footer)\n- Meta tags: description, keywords, OG tags\n- Schema.org JSON-LD LocalBusiness\n- Link ƒë·∫øn styles.css v√† script.js\n- ARIA labels cho accessibility\n- Lazy loading images\n\nM√ÄU S·∫ÆC:\n- Ch·ªçn palette ph√π h·ª£p v·ªõi \""
    ++ ctx.prompt
    ++ "\"\n- Gradient backgrounds\n- Consistent color scheme\n\nReturn JSON format (KH√îNG markdown):\n\x7b\"path\": \"index.html\", \"content\": \"<!DOCTYPE html>...<COMPLETE 300+ LINES>...\", \"type\": \"html\"\x7d"

def cssPromptText (ctx : GenerationContext) : String :=
  "B·∫°n l√† CSS/UI DESIGN EXPERT. T·∫°o file styles.css HO√ÄN CH·ªàNH cho website.\n\n=== CONTEXT WEBSITE ===\n\""
    ++ ctx.prompt
    ++ "\"\n\n=== PH√ÇN T√çCH TH∆Ø∆†NG HI·ªÜU ===\nD·ª±a tr√™n \""
    ++ ctx.prompt
    ++ "\", h√£y:\n1. X√°c ƒë·ªãnh B·∫¢NG M√ÄU ph√π h·ª£p (primary, secondary, accent)\n2. X√°c ƒë·ªãnh FONT ph√π h·ª£p (sans-serif chuy√™n nghi·ªáp hay serif sang tr·ªçng)\n3. X√°c ƒë·ªãnh STYLE (minimal, luxury, playful, corporate...)\n\n=== Y√äU C·∫¶U B·∫ÆT BU·ªòC ===\nT·∫°o CSS v·ªõi T·ªêI THI·ªÇU 250+ d√≤ng code:\n\n1. CSS VARIABLES (30+ variables):\n   - M√†u s·∫Øc: --color-primary, --color-secondary, --color-accent, --color-bg, --color-text\n   - Typography: --font-primary, --font-secondary\n   - Spacing: --spacing-xs ƒë·∫øn --spacing-3xl\n   - Border radius, shadows, transitions\n\n2. RESET & BASE (20+ d√≤ng):\n   - Box-sizing, margin, padding reset\n   - Smooth scroll, font rendering\n\n3. TYPOGRAPHY (30+ d√≤ng):\n   - Headings h1-h6 v·ªõi scale ƒë·∫πp\n   - Body text, links, lists\n   - Line-height, letter-spacing\n\n4. COMPONENTS (80+ d√≤ng):\n   - Buttons: primary, secondary, outline, ghost\n   - Cards v·ªõi hover effects\n   - Forms: inputs, textareas, selects\n   - Navigation styles\n   - Badges, tags\n\n5. LAYOUT (30+ d√≤ng):\n   - Container, grid, flex utilities\n   - Section spacing\n\n6. ANIMATIONS (40+ d√≤ng):\n   - @keyframes fadeIn, slideUp, slideDown, scaleIn, pulse\n   - .animate-* utility classes\n   - Transition timing functions\n\n7. RESPONSIVE (30+ d√≤ng):\n   - Mobile first approach\n   - @media queries: 640px, 768px, 1024px, 1280px\n\n8. DARK MODE (20+ d√≤ng):\n   - @media (prefers-color-scheme: dark)\n   - Inverted colors\n\n9. SPECIAL EFFECTS:\n   - Glassmorphism: backdrop-filter blur\n   - Gradients ph√π h·ª£p v·ªõi \""
    ++ ctx.prompt
    ++ "\"\n   - Custom scrollbar\n   - Selection color\n\nReturn JSON (KH√îNG markdown):\n\x7b\"path\": \"styles.css\", \"content\": \"/* Complete CSS - 250+ lines */...\", \"type\": \"css\"\x7d"

def jsPromptText (ctx : GenerationContext) : String :=
  "B·∫°n l√† JAVASCRIPT EXPERT. T·∫°o file script.js HO√ÄN CH·ªàNH cho website.\n\n=== CONTEXT WEBSITE ===\n\""
    ++ ctx.prompt
    ++ "\"\n\n=== Y√äU C·∫¶U B·∫ÆT BU·ªòC ===\nT·∫°o JavaScript v·ªõi T·ªêI THI·ªÇU 200+ d√≤ng code, ƒë·∫ßy ƒë·ªß ch·ª©c nƒÉng:\n\n1. MOBILE NAVIGATION (30+ d√≤ng):\n   - Toggle hamburger menu\n   - Close menu khi click outside\n   - Close menu khi click link\n   - Body scroll lock khi menu open\n\n2. SMOOTH SCROLL (20+ d√≤ng):\n   - Smooth scroll cho t·∫•t c·∫£ anchor links\n   - Offset cho fixed header\n   - Active state cho navigation\n\n3. SCROLL EFFECTS (40+ d√≤ng):\n   - Sticky header v·ªõi background change\n   - Scroll spy ƒë·ªÉ highlight active menu\n   - Back to top button (show/hide)\n   - Progress bar (optional)\n\n4. SCROLL ANIMATIONS (40+ d√≤ng):\n   - IntersectionObserver cho animate-on-scroll\n   - Fade in, slide up animations\n   - Stagger animations cho list items\n   - Lazy load images\n\n5. FORM HANDLING (40+ d√≤ng):\n   - Validation cho contact form\n   - Email format check\n   - Phone format check\n   - Required field check\n   - Error message display\n   - Success message\n   - Form reset sau submit\n\n6. UI INTERACTIONS (30+ d√≤ng):\n   - Accordion/FAQ toggle\n   - Tab switching\n   - Modal open/close\n   - Tooltip hover\n   - Counter animation cho stats\n\n7. UTILITY FUNCTIONS:\n   - Debounce/throttle\n   - Get viewport height\n   - Check mobile device\n\n=== K·ª∏ THU·∫¨T ===\n- Modern ES6+ syntax\n- Event delegation khi c·∫ßn\n- DOMContentLoaded wrapper\n- Error handling\n- Console logs cho debugging\n\nReturn JSON (KH√îNG markdown):\n\x7b\"path\": \"script.js\", \"content\": \"// Complete JavaScript - 200+ lines...\", \"type\": \"js\"\x7d"

def generateFallbackHTMLBody (prompt : String) (language : Language) (isVi : Bool) : String :=
  "<!DOCTYPE html>\n<html lang=\""
    ++ languageCode language
    ++ "\">\n<head>\n  <meta charset=\"UTF-8\">\n  <meta name=\"viewport\" content=\"width=device-width, initial-scale=1.0\">\n  <title>"
    ++ strSlice prompt 50
    ++ "</title>\n  <link rel=\"stylesheet\" href=\"styles.css\">\n  <script src=\"https://cdn.tailwindcss.com\"></script>\n</head>\n<body class=\"min-h-screen bg-gradient-to-br from-slate-900 via-blue-900 to-slate-900 text-white\">\n  <header class=\"py-6 px-8 border-b border-white/10\">\n    <nav class=\"max-w-6xl mx-auto flex justify-between items-center\">\n      <h1 class=\"text-2xl font-bold\">"
    ++ strSlice prompt 30
    ++ "</h1>\n      <div class=\"flex gap-6\">\n        <a href=\"\x23\" class=\"hover:text-blue-400 transition\">"
    ++ (if isVi then "Trang ch·ªß" else "Home")
    ++ "</a>\n        <a href=\"\x23features\" class=\"hover:text-blue-400 transition\">"
    ++ (if isVi then "T√≠nh nƒÉng" else "Features")
    ++ "</a>\n        <a href=\"\x23about\" class=\"hover:text-blue-400 transition\">"
    ++ (if isVi then "Gi·ªõi thi·ªáu" else "About")
    ++ "</a>\n        <a href=\"\x23contact\" class=\"hover:text-blue-400 transition\">"
    ++ (if isVi then "Li√™n h·ªá" else "Contact")
    ++ "</a>\n      </div>\n    </nav>\n  </header>\n  \n  <main class=\"max-w-6xl mx-auto px-8 py-20\">\n    <section class=\"text-center mb-20\">\n      <h2 class=\"text-5xl font-extrabold mb-6 bg-gradient-to-r from-blue-400 to-purple-400 bg-clip-text text-transparent\">\n        "
    ++ strSlice prompt 60
    ++ "\n      </h2>\n      <p class=\"text-xl text-slate-300 max-w-2xl mx-auto mb-8\">\n        "
    ++ (if isVi then "Ch√†o m·ª´ng ƒë·∫øn v·ªõi website c·ªßa ch√∫ng t√¥i. Kh√°m ph√° c√°c d·ªãch v·ª• tuy·ªát v·ªùi m√† ch√∫ng t√¥i mang l·∫°i." else "Welcome to our website. Discover the amazing services we provide.")
    ++ "\n      </p>\n      <button class=\"px-8 py-4 bg-blue-600 hover:bg-blue-700 rounded-xl font-bold text-lg transition shadow-lg shadow-blue-500/30\">\n        "
    ++ (if isVi then "B·∫Øt ƒë·∫ßu ngay" else "Get Started")
    ++ "\n      </button>\n    </section>\n\n    <section id=\"features\" class=\"mb-20\">\n      <h3 class=\"text-3xl font-bold text-center mb-12\">"
    ++ (if isVi then "T√≠nh nƒÉng n·ªïi b·∫≠t" else "Key Features")
    ++ "</h3>\n      <div class=\"grid md:grid-cols-3 gap-8\">\n        <div class=\"p-6 bg-white/5 rounded-2xl border border-white/10\">\n          <div class=\"text-4xl mb-4\">‚ö°</div>\n          <h4 class=\"text-xl font-bold mb-2\">"
    ++ (if isVi then "Si√™u t·ªëc" else "Lightning Fast")
    ++ "</h4>\n          <p class=\"text-slate-400\">"
    ++ (if isVi then "Hi·ªáu su·∫•t t·ªëi ∆∞u cho tr·∫£i nghi·ªám t·ªët nh·∫•t" else "Optimized performance for the best experience")
    ++ "</p>\n        </div>\n        <div class=\"p-6 bg-white/5 rounded-2xl border border-white/10\">\n          <div class=\"text-4xl mb-4\">üõ°Ô∏è</div>\n          <h4 class=\"text-xl font-bold mb-2\">"
    ++ (if isVi then "B·∫£o m·∫≠t" else "Secure")
    ++ "</h4>\n          <p class=\"text-slate-400\">"
    ++ (if isVi then "B·∫£o v·ªá d·ªØ li·ªáu c·ªßa b·∫°n tuy·ªát ƒë·ªëi" else "Your data is absolutely protected")
    ++ "</p>\n        </div>\n        <div class=\"p-6 bg-white/5 rounded-2xl border border-white/10\">\n          <div class=\"text-4xl mb-4\">üé®</div>\n          <h4 class=\"text-xl font-bold mb-2\">"
    ++ (if isVi then "Thi·∫øt k·∫ø ƒë·∫πp" else "Beautiful Design")
    ++ "</h4>\n          <p class=\"text-slate-400\">"
    ++ (if isVi then "Giao di·ªán hi·ªán ƒë·∫°i, chuy√™n nghi·ªáp" else "Modern, professional interface")
    ++ "</p>\n        </div>\n      </div>\n    </section>\n\n    <section id=\"about\" class=\"mb-20 text-center\">\n      <h3 class=\"text-3xl font-bold mb-8\">"
    ++ (if isVi then "V·ªÅ ch√∫ng t√¥i" else "About Us")
    ++ "</h3>\n      <p class=\"text-lg text-slate-300 max-w-3xl mx-auto\">\n        "
    ++ (if isVi then "Ch√∫ng t√¥i l√† ƒë·ªôi ng≈© chuy√™n gia v·ªõi nhi·ªÅu nƒÉm kinh nghi·ªám trong lƒ©nh v·ª±c c√¥ng ngh·ªá. S·ª© m·ªánh c·ªßa ch√∫ng t√¥i l√† mang ƒë·∫øn nh·ªØng gi·∫£i ph√°p t·ªët nh·∫•t cho kh√°ch h√†ng." else "We are a team of experts with years of experience in the technology field. Our mission is to deliver the best solutions to our customers.")
    ++ "\n      </p>\n    </section>\n\n    <section id=\"contact\" class=\"text-center\">\n      <h3 class=\"text-3xl font-bold mb-8\">"
    ++ (if isVi then "Li√™n h·ªá" else "Contact Us")
    ++ "</h3>\n      <form class=\"max-w-md mx-auto space-y-4\">\n        <input type=\"text\" placeholder=\""
    ++ (if isVi then "H·ªç t√™n" else "Full Name")
    ++ "\" class=\"w-full px-4 py-3 rounded-xl bg-white/10 border border-white/20 focus:border-blue-500 outline-none\">\n        <input type=\"email\" placeholder=\"Email\" class=\"w-full px-4 py-3 rounded-xl bg-white/10 border border-white/20 focus:border-blue-500 outline-none\">\n        <textarea placeholder=\""
    ++ (if isVi then "Tin nh·∫Øn" else "Message")
    ++ "\" rows=\"4\" class=\"w-full px-4 py-3 rounded-xl bg-white/10 border border-white/20 focus:border-blue-500 outline-none\"></textarea>\n        <button type=\"submit\" class=\"w-full px-8 py-4 bg-blue-600 hover:bg-blue-700 rounded-xl font-bold transition\">\n          "
    ++ (if isVi then "G·ª≠i tin nh·∫Øn" else "Send Message")
    ++ "\n        </button>\n      </form>\n    </section>\n  </main>\n  \n  <footer class=\"border-t border-white/10 py-8 text-center text-slate-400 mt-20\">\n    <p>¬© 2024 "
    ++ strSlice prompt 30
    ++ ". "
    ++ (if isVi then "T·∫°o b·ªüi DMP AI" else "Created by DMP AI")
    ++ "</p>\n  </footer>\n  <script src=\"script.js\"></script>\n</body>\n</html>"

def generateFallbackHTML (prompt : String) (language : Language) : String :=
  generateFallbackHTMLBody prompt language (language == Language.vi)

def generateFallbackCSS  : String :=
  "/* DMP AI Generated Styles */\n:root \x7b\n  --color-primary: \x233b82f6;\n  --color-primary-dark: \x232563eb;\n  --color-secondary: \x238b5cf6;\n  --color-background: \x230f172a;\n  --color-surface: \x231e293b;\n  --color-text: \x23f8fafc;\n  --color-text-muted: \x2394a3b8;\n\x7d\n\n* \x7b\n  margin: 0;\n  padding: 0;\n  box-sizing: border-box;\n\x7d\n\nhtml \x7b\n  scroll-behavior: smooth;\n\x7d\n\nbody \x7b\n  font-family: -apple-system, BlinkMacSystemFont, \x27Segoe UI\x27, Roboto, sans-serif;\n  background: var(--color-background);\n  color: var(--color-text);\n  line-height: 1.6;\n\x7d\n\n/* Animations */\n@keyframes fadeIn \x7b\n  from \x7b opacity: 0; transform: translateY(20px); \x7d\n  to \x7b opacity: 1; transform: translateY(0); \x7d\n\x7d\n\n@keyframes slideUp \x7b\n  from \x7b opacity: 0; transform: translateY(40px); \x7d\n  to \x7b opacity: 1; transform: translateY(0); \x7d\n\x7d\n\n@keyframes pulse \x7b\n  0%, 100% \x7b opacity: 1; \x7d\n  50% \x7b opacity: 0.5; \x7d\n\x7d\n\n.animate-fadeIn \x7b\n  animation: fadeIn 0.6s ease-out;\n\x7d\n\n.animate-slideUp \x7b\n  animation: slideUp 0.8s ease-out;\n\x7d\n\n/* Glass effect */\n.glass \x7b\n  background: rgba(255, 255, 255, 0.05);\n  backdrop-filter: blur(10px);\n  border: 1px solid rgba(255, 255, 255, 0.1);\n\x7d\n\n/* Custom scrollbar */\n::-webkit-scrollbar \x7b\n  width: 8px;\n\x7d\n\n::-webkit-scrollbar-track \x7b\n  background: var(--color-surface);\n\x7d\n\n::-webkit-scrollbar-thumb \x7b\n  background: var(--color-primary);\n  border-radius: 4px;\n\x7d\n\n/* Responsive */\n@media (max-width: 768px) \x7b\n  nav .flex.gap-6 \x7b\n    display: none;\n  \x7d\n\x7d"

def generateFallbackJS  : String :=
  "// DMP AI Generated JavaScript\ndocument.addEventListener(\x27DOMContentLoaded\x27, function() \x7b\n  console.log(\x27Website initialized\x27);\n\n  // Smooth scroll for anchor links\n  document.querySelectorAll(\x27a[href^=\"\x23\"]\x27).forEach(anchor => \x7b\n    anchor.addEventListener(\x27click\x27, function(e) \x7b\n      e.preventDefault();\n      const target = document.querySelector(this.getAttribute(\x27href\x27));\n      if (target) \x7b\n        target.scrollIntoView(\x7b behavior: \x27smooth\x27, block: \x27start\x27 \x7d);\n      \x7d\n    \x7d);\n  \x7d);\n\n  // Form validation\n  const form = document.querySelector(\x27form\x27);\n  if (form) \x7b\n    form.addEventListener(\x27submit\x27, function(e) \x7b\n      e.preventDefault();\n      const inputs = form.querySelectorAll(\x27input, textarea\x27);\n      let isValid = true;\n      \n      inputs.forEach(input => \x7b\n        if (!input.value.trim()) \x7b\n          input.style.borderColor = \x27\x23ef4444\x27;\n          isValid = false;\n        \x7d else \x7b\n          input.style.borderColor = \x27\x27;\n        \x7d\n      \x7d);\n\n      if (isValid) \x7b\n        alert(\x27Form submitted successfully!\x27);\n        form.reset();\n      \x7d\n    \x7d);\n  \x7d\n\n  // Scroll animations\n  const observer = new IntersectionObserver((entries) => \x7b\n    entries.forEach(entry => \x7b\n      if (entry.isIntersecting) \x7b\n        entry.target.style.opacity = \x271\x27;\n        entry.target.style.transform = \x27translateY(0)\x27;\n      \x7d\n    \x7d);\n  \x7d, \x7b threshold: 0.1 \x7d);\n\n  document.querySelectorAll(\x27section\x27).forEach(section => \x7b\n    section.style.opacity = \x270\x27;\n    section.style.transform = \x27translateY(20px)\x27;\n    section.style.transition = \x27all 0.6s ease-out\x27;\n    observer.observe(section);\n  \x7d);\n\n  // Mobile menu (if exists)\n  const menuBtn = document.querySelector(\x27.mobile-menu-btn\x27);\n  const mobileMenu = document.querySelector(\x27.mobile-menu\x27);\n  if (menuBtn && mobileMenu) \x7b\n    menuBtn.addEventListener(\x27click\x27, () => \x7b\n      mobileMenu.classList.toggle(\x27hidden\x27);\n    \x7d);\n  \x7d\n\x7d);"

def generateFallbackPageBody (pageName : String) (ctx : GenerationContext) (isVi : Bool) (title : String) : String :=
  "<!DOCTYPE html>\n<html lang=\""
    ++ languageCode ctx.language
    ++ "\">\n<head>\n  <meta charset=\"UTF-8\">\n  <meta name=\"viewport\" content=\"width=device-width, initial-scale=1.0\">\n  <title>"
    ++ title
    ++ " - "
    ++ strSlice ctx.prompt 30
    ++ "</title>\n  <link rel=\"stylesheet\" href=\"styles.css\">\n  <script src=\"https://cdn.tailwindcss.com\"></script>\n</head>\n<body class=\"min-h-screen bg-gradient-to-br from-slate-900 via-blue-900 to-slate-900 text-white\">\n  <header class=\"py-6 px-8 border-b border-white/10\">\n    <nav class=\"max-w-6xl mx-auto flex justify-between items-center\">\n      <a href=\"index.html\" class=\"text-2xl font-bold\">"
    ++ strSlice ctx.prompt 20
    ++ "</a>\n      <a href=\"index.html\" class=\"text-blue-400 hover:text-white transition\">"
    ++ (if isVi then "‚Üê Trang ch·ªß" else "‚Üê Home")
    ++ "</a>\n    </nav>\n  </header>\n  \n  <main class=\"max-w-6xl mx-auto px-8 py-20\">\n    <h1 class=\"text-4xl font-bold mb-8\">"
    ++ title
    ++ "</h1>\n    <div class=\"prose prose-invert max-w-none\">\n      <p class=\"text-xl text-slate-300\">\n        "
    ++ (if isVi then ("ƒê√¢y l√† trang " ++ title.toLower ++ ". N·ªôi dung s·∫Ω ƒë∆∞·ª£c c·∫≠p nh·∫≠t.") else ("This is the " ++ pageName ++ " page. Content will be updated."))
    ++ "\n      </p>\n    </div>\n  </main>\n  \n  <footer class=\"border-t border-white/10 py-8 text-center text-slate-400 mt-20\">\n    <p>¬© 2024 "
    ++ strSlice ctx.prompt 30
    ++ "</p>\n  </footer>\n  <script src=\"script.js\"></script>\n</body>\n</html>"

/-- The `titles` record of `generateFallbackPage` plus the
`titles[pageName]?.[ctx.language] || pageName` lookup. -/
def pageTitle (pageName : String) (language : Language) : String :=
  if pageName = "about" then
    (if language = Language.vi then "Gi·ªõi thi·ªáu" else "About Us")
  else if pageName = "services" then
    (if language = Language.vi then "D·ªãch v·ª•" else "Services")
  else if pageName = "products" then
    (if language = Language.vi then "S·∫£n ph·∫©m" else "Products")
  else if pageName = "contact" then
    (if language = Language.vi then "Li√™n h·ªá" else "Contact")
  else if pageName = "blog" then
    (if language = Language.vi then "Tin t·ª©c" else "Blog")
  else if pageName = "admin" then
    (if language = Language.vi then "Qu·∫£n tr·ªã" else "Admin")
  else pageName

def generateFallbackPage (pageName : String) (ctx : GenerationContext) : String :=
  generateFallbackPageBody pageName ctx (ctx.language == Language.vi)
    (pageTitle pageName ctx.language)

/-- The `ctx` object built at the top of `generateWebsite`. -/
def mkContext (prompt : String) (language : Language) (type : WebsiteType)
    (selectedPages selectedOptions : List String) (includeAdmin : Bool)
    (referenceUrl : Option String) : GenerationContext :=
  ⟨prompt, language,
   if language = Language.vi then "Ti·∫øng Vi·ªát" else "English",
   type, selectedPages, selectedOptions, includeAdmin, referenceUrl⟩

/-- Read a string field out of a parsed JSON object. -/
def getStrField (ms : List (List Char × Json)) (name : String) : Option String :=
  match ms.find? (fun m => m.1 == name.data) with
  | some (_, Json.jstr s) => some (String.mk s)
  | _ => none

/-- `parseJsonResponse<GeneratedFile>`: the parsed object must carry the
three string fields the steps subsequently read. -/
def parseFileResponse (text : String) : Option GeneratedFile :=
  match parseJsonResponse text.data with
  | some (Json.jobj ms) =>
    match getStrField ms "path", getStrField ms "content", getStrField ms "type" with
    | some p, some c, some ty => some ⟨p, c, ty⟩
    | _, _, _ => none
  | _ => none

/-- `parseJsonResponse<{title, description, keywords}>` for `generateSEO`. -/
def parseSeoResponse (text : String) : Option SeoData :=
  match parseJsonResponse text.data with
  | some (Json.jobj ms) =>
    match getStrField ms "title", getStrField ms "description",
        getStrField ms "keywords" with
    | some a, some b, some c => some ⟨a, b, c⟩
    | _, _, _ => none
  | _ => none

/-- Pipeline-level state: the selector state, the provider-call counter, the
prompts handed to the invoker (one entry per `callGeminiAPI` invocation) and
the accumulated backoff delays. -/
structure GenState where
  sel : SelectorState
  calls : Nat
  prompts : List String
  delays : List Nat

/-- One `await callGeminiAPI(prompt)` from a pipeline step. -/
def invoke (provider : Nat → Except String String) (now : Nat) (p : String)
    (g : GenState) : Except String String × GenState :=
  let o := callGeminiAPI provider now g.sel g.calls
  (o.result, ⟨o.sel, o.calls, g.prompts ++ [p], g.delays ++ o.delays⟩)

def fallbackHtmlFile (ctx : GenerationContext) : GeneratedFile :=
  ⟨"index.html", generateFallbackHTML ctx.prompt ctx.language, "html"⟩

def fallbackCssFile : GeneratedFile :=
  ⟨"styles.css", generateFallbackCSS, "css"⟩

def fallbackJsFile : GeneratedFile :=
  ⟨"script.js", generateFallbackJS, "js"⟩

def fallbackPageFile (pageName : String) (ctx : GenerationContext) : GeneratedFile :=
  ⟨pageName ++ ".html", generateFallbackPage pageName ctx, "html"⟩

def fallbackSeo (ctx : GenerationContext) : SeoData :=
  ⟨strSlice ctx.prompt 60, ctx.prompt, "website, landing page"⟩

/-- STEP 1 `generateHTML` (lines 481-576): invoke, parse, re-issue the
request once with a stricter instruction when the parsed content is under
5000 characters; any exception yields the static fallback. -/
def generateHTML (provider : Nat → Except String String) (now : Nat)
    (ctx : GenerationContext) (g : GenState) :
    Except String GeneratedFile × GenState :=
  match invoke provider now (htmlPromptText ctx) g with
  | (Except.error _, g1) => (Except.ok (fallbackHtmlFile ctx), g1)
  | (Except.ok text, g1) =>
    match parseFileResponse text with
    | none => (Except.ok (fallbackHtmlFile ctx), g1)
    | some result =>
      if result.content.length < 5000 then
        match invoke provider now
            (htmlPromptText ctx ++ htmlStricterSuffix result.content.length) g1 with
        | (Except.error _, g2) => (Except.ok (fallbackHtmlFile ctx), g2)
        | (Except.ok text2, g2) =>
          match parseFileResponse text2 with
          | none => (Except.ok (fallbackHtmlFile ctx), g2)
          | some result2 => (Except.ok result2, g2)
      else (Except.ok result, g1)

/-- STEP 2 `generateCSS` (lines 579-665): threshold 3000; the produced HTML
is passed in but not used by the prompt. -/
def generateCSS (provider : Nat → Except String String) (now : Nat)
    (ctx : GenerationContext) (_htmlContent : String) (g : GenState) :
    Except String GeneratedFile × GenState :=
  match invoke provider now (cssPromptText ctx) g with
  | (Except.error _, g1) => (Except.ok fallbackCssFile, g1)
  | (Except.ok text, g1) =>
    match parseFileResponse text with
    | none => (Except.ok fallbackCssFile, g1)
    | some result =>
      if result.content.length < 3000 then
        match invoke provider now
            (cssPromptText ctx ++ cssStricterSuffix result.content.length) g1 with
        | (Except.error _, g2) => (Except.ok fallbackCssFile, g2)
        | (Except.ok text2, g2) =>
          match parseFileResponse text2 with
          | none => (Except.ok fallbackCssFile, g2)
          | some result2 => (Except.ok result2, g2)
      else (Except.ok result, g1)

/-- STEP 3 `generateJS` (lines 668-754): threshold 2000. -/
def generateJS (provider : Nat → Except String String) (now : Nat)
    (ctx : GenerationContext) (g : GenState) :
    Except String GeneratedFile × GenState :=
  match invoke provider now (jsPromptText ctx) g with
  | (Except.error _, g1) => (Except.ok fallbackJsFile, g1)
  | (Except.ok text, g1) =>
    match parseFileResponse text with
    | none => (Except.ok fallbackJsFile, g1)
    | some result =>
      if result.content.length < 2000 then
        match invoke provider now
            (jsPromptText ctx ++ jsStricterSuffix result.content.length) g1 with
        | (Except.error _, g2) => (Except.ok fallbackJsFile, g2)
        | (Except.ok text2, g2) =>
          match parseFileResponse text2 with
          | none => (Except.ok fallbackJsFile, g2)
          | some result2 => (Except.ok result2, g2)
      else (Except.ok result, g1)

/-- STEP 4 `generatePage` (lines 757-784): one invocation, no quality gate;
any exception yields the page fallback. -/
def generatePage (provider : Nat → Except String String) (now : Nat)
    (pageName : String) (ctx : GenerationContext) (g : GenState) :
    Except String GeneratedFile × GenState :=
  match invoke provider now (pagePromptText pageName ctx) g with
  | (Except.error _, g1) => (Except.ok (fallbackPageFile pageName ctx), g1)
  | (Except.ok text, g1) =>
    match parseFileResponse text with
    | none => (Except.ok (fallbackPageFile pageName ctx), g1)
    | some result => (Except.ok result, g1)

/-- `generateSEO` (lines 787-804). -/
def generateSEO (provider : Nat → Except String String) (now : Nat)
    (ctx : GenerationContext) (g : GenState) :
    Except String SeoData × GenState :=
  match invoke provider now (seoPromptText ctx) g with
  | (Except.error _, g1) => (Except.ok (fallbackSeo ctx), g1)
  | (Except.ok text, g1) =>
    match parseSeoResponse text with
    | none => (Except.ok (fallbackSeo ctx), g1)
    | some seo => (Except.ok seo, g1)

/-- The `for (const pageName of selectedPages)` loop of `generateWebsite`
(lines 847-854): every page except `home` gets a `generatePage` step. -/
def genPages (provider : Nat → Except String String) (now : Nat)
    (ctx : GenerationContext) :
    List String → GenState → Except String (List GeneratedFile) × GenState
  | [], g => (Except.ok [], g)
  | pageName :: rest, g =>
    if pageName = "home" then genPages provider now ctx rest g
    else
      match generatePage provider now pageName ctx g with
      | (Except.error e, g1) => (Except.error e, g1)
      | (Except.ok f, g1) =>
        match genPages provider now ctx rest g1 with
        | (Except.error e, g2) => (Except.error e, g2)
        | (Except.ok fs, g2) => (Except.ok (f :: fs), g2)

/-- `generateWebsite` (lines 808-869): HTML, CSS, JS, extra pages for a
multi-page site, an optional admin page, then SEO metadata; the files list
accumulates in this order. An `Except.error` anywhere would propagate to
the caller, mirroring an uncaught JS exception. -/
def generateWebsite (provider : Nat → Except String String) (now : Nat)
    (prompt : String) (language : Language) (type : WebsiteType)
    (selectedPages : List String) (selectedOptions : List String)
    (includeAdmin : Bool) (referenceUrl : Option String)
    (g : GenState) : Except String WebsiteData × GenState :=
  let ctx := mkContext prompt language type selectedPages selectedOptions
    includeAdmin referenceUrl
  match generateHTML provider now ctx g with
  | (Except.error e, g1) => (Except.error e, g1)
  | (Except.ok htmlFile, g1) =>
    match generateCSS provider now ctx htmlFile.content g1 with
    | (Except.error e, g2) => (Except.error e, g2)
    | (Except.ok cssFile, g2) =>
      match generateJS provider now ctx g2 with
      | (Except.error e, g3) => (Except.error e, g3)
      | (Except.ok jsFile, g3) =>
        match (if type = WebsiteType.website ∧ selectedPages.length > 0 then
                genPages provider now ctx selectedPages g3
              else (Except.ok [], g3)) with
        | (Except.error e, g4) => (Except.error e, g4)
        | (Except.ok pageFiles, g4) =>
          match (if includeAdmin then
                  match generatePage provider now "admin" ctx g4 with
                  | (Except.error e, g5) => (Except.error e, g5)
                  | (Except.ok f, g5) => (Except.ok [f], g5)
                else (Except.ok [], g4)) with
          | (Except.error e, g5) => (Except.error e, g5)
          | (Except.ok adminFiles, g5) =>
            match generateSEO provider now ctx g5 with
            | (Except.error e, g6) => (Except.error e, g6)
            | (Except.ok seo, g6) =>
              (Except.ok ⟨[htmlFile, cssFile, jsFile] ++ pageFiles ++ adminFiles, seo⟩,
               g6)

/-- The file list a run produces when every step falls back: used to state
the graceful-degradation claims. -/
def allFallbackFiles (ctx : GenerationContext) (type : WebsiteType)
    (selectedPages : List String) (includeAdmin : Bool) : List GeneratedFile :=
  [fallbackHtmlFile ctx, fallbackCssFile, fallbackJsFile] ++
    (if type = WebsiteType.website ∧ selectedPages.length > 0 then
      (selectedPages.filter (fun p => !(p == "home"))).map
        (fun p => fallbackPageFile p ctx)
    else []) ++
    (if includeAdmin then [fallbackPageFile "admin" ctx] else [])

/-- The prompts issued by the `genPages` loop, in order. -/
def pagePrompts (ctx : GenerationContext) : List String → List String
  | [] => []
  | pageName :: rest =>
    if pageName = "home" then pagePrompts ctx rest
    else pagePromptText pageName ctx :: pagePrompts ctx rest

-- ==================== Theorems ====================

theorem mapGet_eq_none_of_not_mem {m : List (Nat × FailedKeyInfo)} {i : Nat}
    (h : i ∉ m.map Prod.fst) : mapGet m i = none := by
  induction m with
  | nil => rfl
  | cons e rest ih =>
    simp only [List.map_cons, List.mem_cons] at h
    push_neg at h
    simp only [mapGet, if_neg (Ne.symm h.1)]
    exact ih h.2

theorem mapGet_filter_none {p : Nat × FailedKeyInfo → Bool}
    {m : List (Nat × FailedKeyInfo)} {i : Nat} (h : mapGet m i = none) :
    mapGet (m.filter p) i = none := by
  induction m with
  | nil => rfl
  | cons e rest ih =>
    simp only [mapGet] at h
    by_cases he : e.1 = i
    · simp [he] at h
    · simp only [if_neg he] at h
      by_cases hp : p e
      · simp only [List.filter_cons_of_pos hp, mapGet, if_neg he]
        exact ih h
      · simp only [List.filter_cons_of_neg (by simpa using hp)]
        exact ih h

theorem mapGet_filter_of_nodup {p : Nat × FailedKeyInfo → Bool}
    {m : List (Nat × FailedKeyInfo)} {i : Nat} {info : FailedKeyInfo}
    (hnd : (m.map Prod.fst).Nodup) (h : mapGet m i = some info) :
    mapGet (m.filter p) i = if p (i, info) then some info else none := by
  induction m with
  | nil => simp [mapGet] at h
  | cons e rest ih =>
    obtain ⟨a, b⟩ := e
    simp only [List.map_cons, List.nodup_cons] at hnd
    simp only [mapGet] at h
    by_cases he : a = i
    · simp only [if_pos he] at h
      have hb : b = info := by simpa using h
      subst he; subst hb
      by_cases hp : p (a, b)
      · simp [List.filter_cons_of_pos hp, mapGet, hp]
      · simp only [List.filter_cons_of_neg (by simpa using hp), if_neg hp]
        exact mapGet_filter_none
          (mapGet_eq_none_of_not_mem (by simpa using hnd.1))
    · simp only [if_neg he] at h
      by_cases hp : p (a, b)
      · simp only [List.filter_cons_of_pos hp, mapGet, if_neg he]
        exact ih hnd.2 h
      · simp only [List.filter_cons_of_neg (by simpa using hp)]
        exact ih hnd.2 h

theorem sweepExpired_eq_self {now : Nat} {m : List (Nat × FailedKeyInfo)}
    (h : ∀ e ∈ m, now - e.2.failedAt ≤ FAILED_KEY_RESET_MS) :
    sweepExpired now m = m := by
  unfold sweepExpired
  exact List.filter_eq_self.mpr (fun e he => by simpa using h e he)

theorem sweepExpired_idem (now : Nat) (m : List (Nat × FailedKeyInfo)) :
    sweepExpired now (sweepExpired now m) = sweepExpired now m := by
  apply List.filter_eq_self.mpr
  intro e he
  exact (List.mem_filter.mp he).2

theorem scanLoop_none {m : List (Nat × FailedKeyInfo)} {n : Nat}
    (hall : ∀ i, i < n → hasKey m i = true) (hn : 0 < n) :
    ∀ fuel cursor, cursor < n → scanLoop m n cursor fuel = none := by
  intro fuel
  induction fuel with
  | zero => intro cursor _; rfl
  | succ fuel ih =>
    intro cursor hc
    simp only [scanLoop, if_pos (hall cursor hc)]
    exact ih _ (Nat.mod_lt _ hn)

/-- C2: for every pool size N ≥ 1, if all N credentials have an unexpired
health record, the next `getNextApiKey` call clears the entire health map,
resets the sticky index and the round-robin cursor to 0, and returns
credential 0. -/
theorem claim_C2_full_pool_self_heal (now : Nat) (s : SelectorState) (N : Nat)
    (hN : s.apiKeys.length = N) (hpos : 1 ≤ N)
    (hall : ∀ i, i < N → hasKey s.failedKeys i = true)
    (hfresh : ∀ e ∈ s.failedKeys, now - e.2.failedAt ≤ FAILED_KEY_RESET_MS)
    (hsticky : s.stickyKeyIndex < N) (hcursor : s.currentKeyIndex < N) :
    getNextApiKey now s =
      (some (s.apiKeys.getD 0 "", 0),
       { s with failedKeys := [], stickyKeyIndex := 0, currentKeyIndex := 0 }) := by
  subst hN
  have hsweep : sweepExpired now s.failedKeys = s.failedKeys :=
    sweepExpired_eq_self hfresh
  unfold getNextApiKey
  rw [if_neg (by omega : ¬ s.apiKeys.length = 0)]
  simp only [hsweep]
  rw [if_neg (by simp [hall s.stickyKeyIndex hsticky])]
  rw [scanLoop_none hall (by omega) s.apiKeys.length s.currentKeyIndex hcursor]

theorem claim_C2_witness :
    getNextApiKey 1000
      ⟨["k1", "k2"], [(0, ⟨100, 1⟩), (1, ⟨200, 1⟩)], 1, 0⟩ =
      (some ("k1", 0), ⟨["k1", "k2"], [], 0, 0⟩) :=
  claim_C2_full_pool_self_heal 1000
    ⟨["k1", "k2"], [(0, ⟨100, 1⟩), (1, ⟨200, 1⟩)], 1, 0⟩ 2
    rfl (by decide) (by decide) (by decide) (by decide) (by decide)

/-- C7: during the sweep at the start of each selection, a credential's
health record survives if and only if `now - failedAt` does not strictly
exceed the 5-minute cooldown (a record exactly at the threshold is kept);
the sweep never invents records, and the selector state after
`getNextApiKey` carries exactly the swept map unless the full-pool reset
cleared it. -/
theorem claim_C7_sweep_iff (now : Nat) (s : SelectorState)
    (hk : s.apiKeys ≠ [])
    (hnd : (s.failedKeys.map Prod.fst).Nodup) :
    ((getNextApiKey now s).2.failedKeys = sweepExpired now s.failedKeys ∨
      (getNextApiKey now s).2.failedKeys = []) ∧
    (∀ i info, mapGet s.failedKeys i = some info →
      (hasKey (sweepExpired now s.failedKeys) i = true ↔
        now - info.failedAt ≤ FAILED_KEY_RESET_MS)) ∧
    (∀ i, mapGet s.failedKeys i = none →
      hasKey (sweepExpired now s.failedKeys) i = false) := by
  have hlen : ¬ s.apiKeys.length = 0 := fun h => hk (List.length_eq_zero.mp h)
  refine ⟨?_, ?_, ?_⟩
  · unfold getNextApiKey
    rw [if_neg hlen]
    dsimp only
    split
    · left; rfl
    · split
      · left; rfl
      · right; rfl
  · intro i info hi
    unfold hasKey sweepExpired
    rw [mapGet_filter_of_nodup hnd hi]
    by_cases hc : now - info.failedAt > FAILED_KEY_RESET_MS
    · rw [if_neg (by simp [hc])]
      constructor
      · intro h; exact absurd h (by simp)
      · intro h; omega
    · rw [if_pos (by simp [hc])]
      constructor
      · intro _; omega
      · intro _; rfl
  · intro i hi
    unfold hasKey sweepExpired
    rw [mapGet_filter_none hi]
    rfl

theorem claim_C7_witness :
    hasKey (sweepExpired 600000 [(0, ⟨300000, 1⟩), (1, ⟨0, 1⟩)]) 0 = true ∧
    hasKey (sweepExpired 600000 [(0, ⟨300000, 1⟩), (1, ⟨0, 1⟩)]) 1 = false := by
  have h := claim_C7_sweep_iff 600000
    ⟨["k1", "k2"], [(0, ⟨300000, 1⟩), (1, ⟨0, 1⟩)], 0, 0⟩
    (by decide) (by decide)
  refine ⟨(h.2.1 0 ⟨300000, 1⟩ rfl).mpr (by decide), ?_⟩
  have h1 := h.2.1 1 ⟨0, 1⟩ rfl
  cases hb : hasKey (sweepExpired 600000 [(0, ⟨300000, 1⟩), (1, ⟨0, 1⟩)]) 1
  · rfl
  · exact absurd (h1.mp hb) (by decide)

/-- C8: if the sticky credential has no unexpired health record, selection
returns the sticky index, leaves the sticky index and round-robin cursor
unchanged (only the cooldown sweep is applied to the health map), and a
repeated selection returns the same credential and the same state
(selection is idempotent in this case). -/
theorem claim_C8_sticky_stable (now : Nat) (s : SelectorState)
    (hk : s.apiKeys ≠ [])
    (hsticky : hasKey (sweepExpired now s.failedKeys) s.stickyKeyIndex = false) :
    getNextApiKey now s =
      (some (s.apiKeys.getD s.stickyKeyIndex "", s.stickyKeyIndex),
       { s with failedKeys := sweepExpired now s.failedKeys }) ∧
    getNextApiKey now ((getNextApiKey now s).2) = getNextApiKey now s := by
  have hlen : ¬ s.apiKeys.length = 0 := fun h => hk (List.length_eq_zero.mp h)
  have h1 : getNextApiKey now s =
      (some (s.apiKeys.getD s.stickyKeyIndex "", s.stickyKeyIndex),
       { s with failedKeys := sweepExpired now s.failedKeys }) := by
    unfold getNextApiKey
    rw [if_neg hlen]
    dsimp only
    rw [if_pos hsticky]
  refine ⟨h1, ?_⟩
  rw [h1]
  unfold getNextApiKey
  rw [if_neg hlen]
  dsimp only
  rw [sweepExpired_idem, if_pos hsticky]

theorem claim_C8_witness :
    getNextApiKey 0 ⟨["a", "b", "c"], [(2, ⟨0, 1⟩)], 1, 1⟩ =
      (some ("b", 1), ⟨["a", "b", "c"], [(2, ⟨0, 1⟩)], 1, 1⟩) ∧
    getNextApiKey 0 ((getNextApiKey 0 ⟨["a", "b", "c"], [(2, ⟨0, 1⟩)], 1, 1⟩).2) =
      getNextApiKey 0 ⟨["a", "b", "c"], [(2, ⟨0, 1⟩)], 1, 1⟩ :=
  claim_C8_sticky_stable 0 ⟨["a", "b", "c"], [(2, ⟨0, 1⟩)], 1, 1⟩
    (by decide) (by decide)

theorem getNextApiKey_split (now : Nat) (s : SelectorState) (hk : s.apiKeys ≠ []) :
    ∃ k s1, getNextApiKey now s = (some k, s1) ∧ s1.apiKeys = s.apiKeys := by
  have hlen : ¬ s.apiKeys.length = 0 := fun h => hk (List.length_eq_zero.mp h)
  unfold getNextApiKey
  rw [if_neg hlen]
  dsimp only
  split
  · exact ⟨_, _, rfl, rfl⟩
  · split
    · exact ⟨_, _, rfl, rfl⟩
    · exact ⟨_, _, rfl, rfl⟩

theorem callGeminiLoop_step_ok (provider : Nat → Except String String)
    (now attempt remaining : Nat) (lastError : Option String)
    (s : SelectorState) (calls : Nat) (delays : List Nat)
    {k : String × Nat} {s1 : SelectorState} {t : String}
    (h1 : getNextApiKey now s = (some k, s1))
    (h2 : provider calls = Except.ok t) :
    callGeminiLoop provider now attempt (remaining + 1) lastError s calls delays =
      ⟨Except.ok t, s1, calls + 1, delays⟩ := by
  unfold callGeminiLoop
  rw [h1, h2]

theorem callGeminiLoop_step_err (provider : Nat → Except String String)
    (now attempt remaining : Nat) (lastError : Option String)
    (s : SelectorState) (calls : Nat) (delays : List Nat)
    {k : String × Nat} {s1 : SelectorState} {e : String}
    (h1 : getNextApiKey now s = (some k, s1))
    (h2 : provider calls = Except.error e) :
    callGeminiLoop provider now attempt (remaining + 1) lastError s calls delays =
      callGeminiLoop provider now (attempt + 1) remaining (some e)
        (markKeyAsFailed now k.2 s1) (calls + 1)
        (if 1 ≤ remaining then delays ++ [1000 * (attempt + 1)] else delays) := by
  conv_lhs => unfold callGeminiLoop
  rw [h1, h2]

theorem callGeminiAPI_cases (provider : Nat → Except String String)
    (now : Nat) (s : SelectorState) (calls : Nat) (hk : s.apiKeys ≠ []) :
    (∃ t s', provider calls = Except.ok t ∧
       callGeminiAPI provider now s calls = ⟨Except.ok t, s', calls + 1, []⟩) ∨
    (∃ e0 t s', provider calls = Except.error e0 ∧
       provider (calls + 1) = Except.ok t ∧
       callGeminiAPI provider now s calls =
         ⟨Except.ok t, s', calls + 2, [1000 * 1]⟩) ∨
    (∃ e0 e1 t s', provider calls = Except.error e0 ∧
       provider (calls + 1) = Except.error e1 ∧
       provider (calls + 2) = Except.ok t ∧
       callGeminiAPI provider now s calls =
         ⟨Except.ok t, s', calls + 3, [1000 * 1, 1000 * 2]⟩) ∨
    (∃ e0 e1 e2 s', provider calls = Except.error e0 ∧
       provider (calls + 1) = Except.error e1 ∧
       provider (calls + 2) = Except.error e2 ∧
       callGeminiAPI provider now s calls =
         ⟨Except.error e2, s', calls + 3, [1000 * 1, 1000 * 2]⟩) := by
  obtain ⟨k0, s1, h0, hA1⟩ := getNextApiKey_split now s hk
  cases hp0 : provider calls with
  | ok t =>
    exact Or.inl ⟨t, s1, rfl,
      callGeminiLoop_step_ok provider now 0 2 none s calls [] h0 hp0⟩
  | error e0 =>
    have hk1 : s1.apiKeys ≠ [] := by rw [hA1]; exact hk
    have hstep0 : callGeminiAPI provider now s calls =
        callGeminiLoop provider now 1 2 (some e0)
          (markKeyAsFailed now k0.2 s1) (calls + 1) [1000 * 1] := by
      have := callGeminiLoop_step_err provider now 0 2 none s calls [] h0 hp0
      simpa using this
    have hk2 : (markKeyAsFailed now k0.2 s1).apiKeys ≠ [] := hk1
    obtain ⟨k1, s3, h1, hA3⟩ :=
      getNextApiKey_split now (markKeyAsFailed now k0.2 s1) hk2
    cases hp1 : provider (calls + 1) with
    | ok t =>
      refine Or.inr (Or.inl ⟨e0, t, s3, rfl, rfl, ?_⟩)
      rw [hstep0, callGeminiLoop_step_ok provider now 1 1 (some e0) _ _ _ h1 hp1]
    | error e1 =>
      have hk3 : s3.apiKeys ≠ [] := by rw [hA3]; exact hk2
      have hstep1 : callGeminiAPI provider now s calls =
          callGeminiLoop provider now 2 1 (some e1)
            (markKeyAsFailed now k1.2 s3) (calls + 2) [1000 * 1, 1000 * 2] := by
        rw [hstep0, callGeminiLoop_step_err provider now 1 1 (some e0) _ _ _ h1 hp1]
        norm_num
      have hk4 : (markKeyAsFailed now k1.2 s3).apiKeys ≠ [] := hk3
      obtain ⟨k2, s5, h2, hA5⟩ :=
        getNextApiKey_split now (markKeyAsFailed now k1.2 s3) hk4
      cases hp2 : provider (calls + 2) with
      | ok t =>
        refine Or.inr (Or.inr (Or.inl ⟨e0, e1, t, s5, rfl, rfl, rfl, ?_⟩))
        rw [hstep1, callGeminiLoop_step_ok provider now 2 0 (some e1) _ _ _ h2 hp2]
      | error e2 =>
        refine Or.inr (Or.inr (Or.inr
          ⟨e0, e1, e2, markKeyAsFailed now k2.2 s5, rfl, rfl, rfl, ?_⟩))
        rw [hstep1, callGeminiLoop_step_err provider now 2 0 (some e1) _ _ _ h2 hp2]
        norm_num [callGeminiLoop]

/-- C3: the API Invoker performs at most 3 attempts; after each failed
non-final attempt it records the failure against the credential used and
waits `1000 * (attempt + 1)` ms (1s then 2s, strictly increasing); if the
provider succeeds on the 3rd attempt the successful text is returned; after
3 failures the last encountered error is propagated. -/
theorem claim_C3_invoker_retry (provider : Nat → Except String String)
    (now : Nat) (s : SelectorState) (calls : Nat) (hk : s.apiKeys ≠ []) :
    ((callGeminiAPI provider now s calls).calls ≤ calls + MAX_RETRIES) ∧
    (List.Chain' (· < ·) (callGeminiAPI provider now s calls).delays) ∧
    (∀ e0 e1 t, provider calls = Except.error e0 →
      provider (calls + 1) = Except.error e1 →
      provider (calls + 2) = Except.ok t →
      (callGeminiAPI provider now s calls).result = Except.ok t ∧
      (callGeminiAPI provider now s calls).delays = [1000 * 1, 1000 * 2] ∧
      (callGeminiAPI provider now s calls).calls = calls + 3) ∧
    (∀ e0 e1 e2, provider calls = Except.error e0 →
      provider (calls + 1) = Except.error e1 →
      provider (calls + 2) = Except.error e2 →
      (callGeminiAPI provider now s calls).result = Except.error e2 ∧
      (callGeminiAPI provider now s calls).delays = [1000 * 1, 1000 * 2] ∧
      (callGeminiAPI provider now s calls).calls = calls + 3) ∧
    (∀ attempt remaining lastError s' calls' delays'
        (k : String × Nat) s1 e,
      getNextApiKey now s' = (some k, s1) →
      provider calls' = Except.error e →
      callGeminiLoop provider now attempt (remaining + 1) lastError s' calls' delays' =
        callGeminiLoop provider now (attempt + 1) remaining (some e)
          (markKeyAsFailed now k.2 s1) (calls' + 1)
          (if 1 ≤ remaining then delays' ++ [1000 * (attempt + 1)] else delays')) := by
  have hc := callGeminiAPI_cases provider now s calls hk
  refine ⟨?_, ?_, ?_, ?_, ?_⟩
  · rcases hc with ⟨t, s', _, h⟩ | ⟨e0, t, s', _, _, h⟩ |
      ⟨e0, e1, t, s', _, _, _, h⟩ | ⟨e0, e1, e2, s', _, _, _, h⟩ <;>
      rw [h] <;> simp [MAX_RETRIES]
  · rcases hc with ⟨t, s', _, h⟩ | ⟨e0, t, s', _, _, h⟩ |
      ⟨e0, e1, t, s', _, _, _, h⟩ | ⟨e0, e1, e2, s', _, _, _, h⟩ <;>
      rw [h] <;> simp
  · intro e0 e1 t hp0 hp1 hp2
    rcases hc with ⟨t', s', h0, h⟩ | ⟨e0', t', s', h0, h1, h⟩ |
      ⟨e0', e1', t', s', h0, h1, h2, h⟩ | ⟨e0', e1', e2', s', h0, h1, h2, h⟩
    · rw [hp0] at h0; exact absurd h0 (by simp)
    · rw [hp1] at h1; exact absurd h1 (by simp)
    · rw [hp2] at h2
      obtain ⟨ht⟩ := h2
      rw [h]
      exact ⟨rfl, rfl, rfl⟩
    · rw [hp2] at h2; exact absurd h2 (by simp)
  · intro e0 e1 e2 hp0 hp1 hp2
    rcases hc with ⟨t', s', h0, h⟩ | ⟨e0', t', s', h0, h1, h⟩ |
      ⟨e0', e1', t', s', h0, h1, h2, h⟩ | ⟨e0', e1', e2', s', h0, h1, h2, h⟩
    · rw [hp0] at h0; exact absurd h0 (by simp)
    · rw [hp1] at h1; exact absurd h1 (by simp)
    · rw [hp2] at h2; exact absurd h2 (by simp)
    · rw [hp2] at h2
      obtain ⟨he⟩ := h2
      rw [h]
      exact ⟨rfl, rfl, rfl⟩
  · intro attempt remaining lastError s' calls' delays' k s1 e h1 h2
    exact callGeminiLoop_step_err provider now attempt remaining lastError
      s' calls' delays' h1 h2

theorem claim_C3_witness :
    (callGeminiAPI
        (fun n => if n = 0 then Except.error "e0"
          else if n = 1 then Except.error "e1" else Except.ok "done")
        0 ⟨["k"], [], 0, 0⟩ 0).result = Except.ok "done" ∧
    (callGeminiAPI
        (fun n => if n = 0 then Except.error "e0"
          else if n = 1 then Except.error "e1" else Except.ok "done")
        0 ⟨["k"], [], 0, 0⟩ 0).delays = [1000 * 1, 1000 * 2] ∧
    (callGeminiAPI
        (fun n => if n = 0 then Except.error "e0"
          else if n = 1 then Except.error "e1" else Except.ok "done")
        0 ⟨["k"], [], 0, 0⟩ 0).calls = 0 + 3 :=
  (claim_C3_invoker_retry
      (fun n => if n = 0 then Except.error "e0"
        else if n = 1 then Except.error "e1" else Except.ok "done")
      0 ⟨["k"], [], 0, 0⟩ 0
      (by simp)).2.2.1 "e0" "e1" "done" rfl rfl rfl

theorem ne_nil_of_head?_some {α} {l : List α} {a : α} (h : l.head? = some a) :
    l ≠ [] := by
  intro hl; subst hl; simp at h

theorem head?_append_first {α} {l1 l2 : List α} {a : α}
    (h : l1.head? = some a) : (l1 ++ l2).head? = some a := by
  cases l1 with
  | nil => simp at h
  | cons b m => simpa using h

theorem getLast?_append_last {α} (l1 : List α) {l2 : List α} {a : α}
    (h : l2.getLast? = some a) : (l1 ++ l2).getLast? = some a := by
  rw [List.getLast?_append_of_ne_nil l1 (by intro hl; subst hl; simp at h)]
  exact h

theorem getLast?_snoc {α} (l : List α) (a : α) :
    (l ++ [a]).getLast? = some a :=
  getLast?_append_last l rfl

theorem takeWhile_getLast?_imp {p : Char → Bool} {l : List Char} {c : Char}
    (h : (l.takeWhile p).getLast? = some c) : p c = true := by
  have hm : c ∈ l.takeWhile p := by
    obtain ⟨hne, heq⟩ := List.mem_getLast?_eq_getLast (by exact h)
    subst heq
    exact List.getLast_mem hne
  exact List.mem_takeWhile_imp hm

theorem parseF_consumed :
    ∀ fuel tag cs v r, parseF tag fuel cs = some (v, r) →
      ∃ pre c0 c1, cs = pre ++ r ∧ pre.head? = some c0 ∧
        pre.getLast? = some c1 ∧ goodEnd c1 = true ∧
        (tag = PTag.val → startChar c0 = true) := by
  intro fuel
  induction fuel with
  | zero => intro tag cs v r h; simp [parseF] at h
  | succ fuel ih =>
    intro tag cs v r h
    cases tag with
    | val =>
      cases cs with
      | nil => simp [parseF] at h
      | cons c rest =>
        simp only [parseF] at h
        split at h
        · -- string
          next hc =>
          obtain ⟨pre, c0, c1, hsplit, hh, hl, hg, _⟩ := ih _ _ _ _ h
          refine ⟨c :: pre, c, c1, by simp [hsplit], rfl, ?_, hg, fun _ => by subst hc; decide⟩
          show ([c] ++ pre).getLast? = some c1
          exact getLast?_append_last [c] hl
        · next hc1 =>
          split at h
          · -- array
            next hc =>
            obtain ⟨pre, c0, c1, hsplit, hh, hl, hg, _⟩ := ih _ _ _ _ h
            refine ⟨c :: (rest.takeWhile isJsWs ++ pre), c, c1, ?_, rfl, ?_, hg,
              fun _ => by subst hc; decide⟩
            · have e1 : rest = rest.takeWhile isJsWs ++ skipWs rest :=
                (List.takeWhile_append_dropWhile (p := isJsWs) (l := rest)).symm
              conv_lhs => rw [e1, hsplit]
              simp [List.append_assoc]
            · show ([c] ++ (rest.takeWhile isJsWs ++ pre)).getLast? = some c1
              exact getLast?_append_last [c] (getLast?_append_last _ hl)
          · next hc2 =>
            split at h
            · -- object
              next hc =>
              obtain ⟨pre, c0, c1, hsplit, hh, hl, hg, _⟩ := ih _ _ _ _ h
              refine ⟨c :: (rest.takeWhile isJsWs ++ pre), c, c1, ?_, rfl, ?_, hg,
                fun _ => by subst hc; decide⟩
              · have e1 : rest = rest.takeWhile isJsWs ++ skipWs rest :=
                  (List.takeWhile_append_dropWhile (p := isJsWs) (l := rest)).symm
                conv_lhs => rw [e1, hsplit]
                simp [List.append_assoc]
              · show ([c] ++ (rest.takeWhile isJsWs ++ pre)).getLast? = some c1
                exact getLast?_append_last [c] (getLast?_append_last _ hl)
            · next hc3 =>
              split at h
              · -- true
                next hc =>
                split at h
                · next hpre =>
                  simp only [Option.some.injEq, Prod.mk.injEq] at h
                  obtain ⟨rfl, rfl⟩ := h
                  have hr3 : rest = ['r', 'u', 'e'] ++ rest.drop 3 :=
                    (List.prefix_iff_eq_append.mp (List.isPrefixOf_iff_prefix.mp hpre)).symm
                  refine ⟨[c, 'r', 'u', 'e'], c, 'e', ?_, rfl, rfl, by decide,
                    fun _ => by subst hc; decide⟩
                  conv_lhs => rw [hr3]
                  rfl
                · simp at h
              · next hc4 =>
                split at h
                · -- false
                  next hc =>
                  split at h
                  · next hpre =>
                    simp only [Option.some.injEq, Prod.mk.injEq] at h
                    obtain ⟨rfl, rfl⟩ := h
                    have hr3 : rest = ['a', 'l', 's', 'e'] ++ rest.drop 4 :=
                      (List.prefix_iff_eq_append.mp (List.isPrefixOf_iff_prefix.mp hpre)).symm
                    refine ⟨[c, 'a', 'l', 's', 'e'], c, 'e', ?_, rfl, rfl, by decide,
                      fun _ => by subst hc; decide⟩
                    conv_lhs => rw [hr3]
                    rfl
                  · simp at h
                · next hc5 =>
                  split at h
                  · -- null
                    next hc =>
                    split at h
                    · next hpre =>
                      simp only [Option.some.injEq, Prod.mk.injEq] at h
                      obtain ⟨rfl, rfl⟩ := h
                      have hr3 : rest = ['u', 'l', 'l'] ++ rest.drop 3 :=
                        (List.prefix_iff_eq_append.mp (List.isPrefixOf_iff_prefix.mp hpre)).symm
                      refine ⟨[c, 'u', 'l', 'l'], c, 'l', ?_, rfl, rfl, by decide,
                        fun _ => by subst hc; decide⟩
                      conv_lhs => rw [hr3]
                      rfl
                    · simp at h
                  · next hc6 =>
                    split at h
                    · -- number
                      next hnum =>
                      simp only [Option.some.injEq, Prod.mk.injEq] at h
                      obtain ⟨rfl, rfl⟩ := h
                      have hstart : startChar c = true := by
                        rcases Bool.or_eq_true _ _ |>.mp hnum with hd | hd
                        · have : c = '-' := by simpa using hd
                          subst this; decide
                        · simp [startChar, hd]
                      cases htw : rest.takeWhile isNumC with
                      | nil =>
                        refine ⟨[c], c, c, ?_, rfl, rfl, ?_, fun _ => hstart⟩
                        · conv_lhs =>
                            rw [← List.takeWhile_append_dropWhile (p := isNumC) (l := rest)]
                          rw [htw]
                          rfl
                        · rcases Bool.or_eq_true _ _ |>.mp hnum with hd | hd
                          · have : c = '-' := by simpa using hd
                            subst this; decide
                          · simp [goodEnd, isNumC, hd]
                      | cons d tl =>
                        have hgl : (d :: tl).getLast? =
                            some ((d :: tl).getLast (by simp)) :=
                          List.getLast?_eq_getLast _ _
                        refine ⟨c :: rest.takeWhile isNumC, c,
                          (d :: tl).getLast (by simp), ?_, rfl, ?_, ?_, fun _ => hstart⟩
                        · conv_lhs =>
                            rw [← List.takeWhile_append_dropWhile (p := isNumC) (l := rest)]
                          rfl
                        · show ([c] ++ rest.takeWhile isNumC).getLast? = _
                          rw [htw]
                          exact getLast?_append_last [c] hgl
                        · have : isNumC ((d :: tl).getLast (by simp)) = true := by
                            apply takeWhile_getLast?_imp (p := isNumC) (l := rest)
                            rw [htw]; exact hgl
                          simp [goodEnd, this]
                    · simp at h
    | strRest =>
      cases cs with
      | nil => simp [parseF] at h
      | cons c rest =>
        simp only [parseF] at h
        split at h
        · next hc =>
          simp only [Option.some.injEq, Prod.mk.injEq] at h
          obtain ⟨rfl, rfl⟩ := h
          subst hc
          exact ⟨['"'], '"', '"', rfl, rfl, rfl, by decide, fun ht => absurd ht (by decide)⟩
        · next hc =>
          split at h
          · next hbs =>
            cases rest with
            | nil => simp at h
            | cons esc rest2 =>
              simp only [] at h
              cases hrec : parseF PTag.strRest fuel rest2 with
              | none => rw [hrec] at h; simp at h
              | some pr =>
                obtain ⟨jv, r'⟩ := pr
                rw [hrec] at h
                cases jv with
                | jstr body =>
                  simp only [Option.some.injEq, Prod.mk.injEq] at h
                  obtain ⟨rfl, rfl⟩ := h
                  obtain ⟨pre, c0, c1, hsplit, hh, hl, hg, _⟩ := ih _ _ _ _ hrec
                  refine ⟨c :: esc :: pre, c, c1, by simp [hsplit], rfl, ?_, hg,
                    fun ht => absurd ht (by decide)⟩
                  show ([c, esc] ++ pre).getLast? = some c1
                  exact getLast?_append_last [c, esc] hl
                | jnull => simp at h
                | jbool b => simp at h
                | jnum lx => simp at h
                | jarr xs => simp at h
                | jobj ms => simp at h
          · next hbs =>
            cases hrec : parseF PTag.strRest fuel rest with
            | none => rw [hrec] at h; simp at h
            | some pr =>
              obtain ⟨jv, r'⟩ := pr
              rw [hrec] at h
              cases jv with
              | jstr body =>
                simp only [Option.some.injEq, Prod.mk.injEq] at h
                obtain ⟨rfl, rfl⟩ := h
                obtain ⟨pre, c0, c1, hsplit, hh, hl, hg, _⟩ := ih _ _ _ _ hrec
                refine ⟨c :: pre, c, c1, by simp [hsplit], rfl, ?_, hg,
                  fun ht => absurd ht (by decide)⟩
                show ([c] ++ pre).getLast? = some c1
                exact getLast?_append_last [c] hl
              | jnull => simp at h
              | jbool b => simp at h
              | jnum lx => simp at h
              | jarr xs => simp at h
              | jobj ms => simp at h
    | arrRest =>
      simp only [parseF] at h
      split at h
      · next rest =>
        simp only [Option.some.injEq, Prod.mk.injEq] at h
        obtain ⟨rfl, rfl⟩ := h
        exact ⟨[']'], ']', ']', rfl, rfl, rfl, by decide,
          fun ht => absurd ht (by decide)⟩
      · next hne =>
        obtain ⟨pre, c0, c1, hsplit, hh, hl, hg, _⟩ := ih _ _ _ _ h
        exact ⟨pre, c0, c1, hsplit, hh, hl, hg, fun ht => absurd ht (by decide)⟩
    | objRest =>
      simp only [parseF] at h
      split at h
      · next rest =>
        simp only [Option.some.injEq, Prod.mk.injEq] at h
        obtain ⟨rfl, rfl⟩ := h
        exact ⟨['}'], '}', '}', rfl, rfl, rfl, by decide,
          fun ht => absurd ht (by decide)⟩
      · next hne =>
        obtain ⟨pre, c0, c1, hsplit, hh, hl, hg, _⟩ := ih _ _ _ _ h
        exact ⟨pre, c0, c1, hsplit, hh, hl, hg, fun ht => absurd ht (by decide)⟩
    | elems =>
      simp only [parseF] at h
      cases hv : parseF PTag.val fuel cs with
      | none => rw [hv] at h; simp at h
      | some pr =>
        obtain ⟨v1, r1⟩ := pr
        rw [hv] at h
        simp only [] at h
        obtain ⟨p1, c0, c1, hsplit1, hh1, hl1, hg1, _⟩ := ih _ _ _ _ hv
        have e1 : r1 = r1.takeWhile isJsWs ++ skipWs r1 :=
          (List.takeWhile_append_dropWhile (p := isJsWs) (l := r1)).symm
        split at h
        · next r2 hsw =>
          cases hrec : parseF PTag.elems fuel (skipWs r2) with
          | none => rw [hrec] at h; simp at h
          | some pr2 =>
            obtain ⟨v2, r3⟩ := pr2
            rw [hrec] at h
            cases v2 with
            | jarr vs =>
              simp only [Option.some.injEq, Prod.mk.injEq] at h
              obtain ⟨rfl, rfl⟩ := h
              obtain ⟨p3, c0', c1', hsplit3, hh3, hl3, hg3, _⟩ := ih _ _ _ _ hrec
              have e2 : r2 = r2.takeWhile isJsWs ++ skipWs r2 :=
                (List.takeWhile_append_dropWhile (p := isJsWs) (l := r2)).symm
              refine ⟨p1 ++ (r1.takeWhile isJsWs ++ (',' ::
                  (r2.takeWhile isJsWs ++ p3))), c0, c1', ?_,
                head?_append_first hh1, ?_, hg3,
                fun ht => absurd ht (by decide)⟩
              · rw [hsplit1]
                conv_lhs => rw [e1, hsw]
                conv_lhs => rw [e2, hsplit3]
                simp [List.append_assoc]
              · exact getLast?_append_last _ (getLast?_append_last _
                  (getLast?_append_last (',' :: r2.takeWhile isJsWs) hl3))
            | jnull => simp at h
            | jbool b => simp at h
            | jnum lx => simp at h
            | jstr body => simp at h
            | jobj ms => simp at h
        · next r2 hsw =>
          simp only [Option.some.injEq, Prod.mk.injEq] at h
          obtain ⟨rfl, rfl⟩ := h
          refine ⟨p1 ++ (r1.takeWhile isJsWs ++ [']']), c0, ']', ?_,
            head?_append_first hh1, ?_, by decide,
            fun ht => absurd ht (by decide)⟩
          · rw [hsplit1]
            conv_lhs => rw [e1, hsw]
            simp [List.append_assoc]
          · exact getLast?_append_last _ (getLast?_snoc _ _)
        · next => simp at h
    | membs =>
      simp only [parseF] at h
      split at h
      · next rest =>
        cases hk : parseF PTag.strRest fuel rest with
        | none => rw [hk] at h; simp at h
        | some prk =>
          obtain ⟨kv, r0⟩ := prk
          rw [hk] at h
          cases kv with
          | jstr key =>
            simp only [] at h
            obtain ⟨pk, k0, k1, hsplitk, hhk, hlk, hgk, _⟩ := ih _ _ _ _ hk
            have e0 : r0 = r0.takeWhile isJsWs ++ skipWs r0 :=
              (List.takeWhile_append_dropWhile (p := isJsWs) (l := r0)).symm
            split at h
            · next r2 hsw1 =>
              cases hv : parseF PTag.val fuel (skipWs r2) with
              | none => rw [hv] at h; simp at h
              | some prv =>
                obtain ⟨v1, r3⟩ := prv
                rw [hv] at h
                simp only [] at h
                obtain ⟨pv, v0, v1e, hsplitv, hhv, hlv, hgv, _⟩ := ih _ _ _ _ hv
                have e2 : r2 = r2.takeWhile isJsWs ++ skipWs r2 :=
                  (List.takeWhile_append_dropWhile (p := isJsWs) (l := r2)).symm
                have e3 : r3 = r3.takeWhile isJsWs ++ skipWs r3 :=
                  (List.takeWhile_append_dropWhile (p := isJsWs) (l := r3)).symm
                split at h
                · next r4 hsw3 =>
                  cases hrec : parseF PTag.membs fuel (skipWs r4) with
                  | none => rw [hrec] at h; simp at h
                  | some prm =>
                    obtain ⟨mv, r5⟩ := prm
                    rw [hrec] at h
                    cases mv with
                    | jobj ms =>
                      simp only [Option.some.injEq, Prod.mk.injEq] at h
                      obtain ⟨rfl, rfl⟩ := h
                      obtain ⟨pm, m0, m1, hsplitm, hhm, hlm, hgm, _⟩ := ih _ _ _ _ hrec
                      have e4 : r4 = r4.takeWhile isJsWs ++ skipWs r4 :=
                        (List.takeWhile_append_dropWhile (p := isJsWs) (l := r4)).symm
                      refine ⟨'"' :: (pk ++ (r0.takeWhile isJsWs ++ (':' ::
                          (r2.takeWhile isJsWs ++ (pv ++ (r3.takeWhile isJsWs ++ (',' ::
                          (r4.takeWhile isJsWs ++ pm)))))))), '"', m1, ?_, rfl, ?_, hgm,
                        fun ht => absurd ht (by decide)⟩
                      · rw [hsplitk]
                        conv_lhs => rw [e0, hsw1]
                        conv_lhs => rw [e2, hsplitv]
                        conv_lhs => rw [e3, hsw3]
                        conv_lhs => rw [e4, hsplitm]
                        simp [List.append_assoc]
                      · show (['"'] ++ _).getLast? = some m1
                        exact getLast?_append_last _ (getLast?_append_last _
                          (getLast?_append_last _ (getLast?_append_last
                            (':' :: r2.takeWhile isJsWs) (getLast?_append_last _
                              (getLast?_append_last _ (getLast?_append_last
                                (',' :: r4.takeWhile isJsWs) hlm))))))
                    | jnull => simp at h
                    | jbool b => simp at h
                    | jnum lx => simp at h
                    | jstr body => simp at h
                    | jarr xs => simp at h
                · next r4 hsw3 =>
                  simp only [Option.some.injEq, Prod.mk.injEq] at h
                  obtain ⟨rfl, rfl⟩ := h
                  refine ⟨'"' :: (pk ++ (r0.takeWhile isJsWs ++ (':' ::
                      (r2.takeWhile isJsWs ++ (pv ++ (r3.takeWhile isJsWs ++ ['}'])))))),
                    '"', '}', ?_, rfl, ?_, by decide,
                    fun ht => absurd ht (by decide)⟩
                  · rw [hsplitk]
                    conv_lhs => rw [e0, hsw1]
                    conv_lhs => rw [e2, hsplitv]
                    conv_lhs => rw [e3, hsw3]
                    simp [List.append_assoc]
                  · show (['"'] ++ _).getLast? = some '}'
                    exact getLast?_append_last _ (getLast?_append_last _
                      (getLast?_append_last _ (getLast?_append_last
                        (':' :: r2.takeWhile isJsWs) (getLast?_append_last _
                          (getLast?_append_last _ rfl)))))
                · next => simp at h
            · next => simp at h
          | jnull => simp at h
          | jbool b => simp at h
          | jnum lx => simp at h
          | jarr xs => simp at h
          | jobj ms => simp at h
      · next => simp at h

theorem ws_cases {c : Char} (h : isJsWs c = true) :
    c = ' ' ∨ c = '\n' ∨ c = '\t' ∨ c = '\r' := by
  simpa [isJsWs, or_assoc] using h

theorem startChar_not_ws {c : Char} (h : startChar c = true) :
    isJsWs c = false := by
  apply Bool.eq_false_iff.mpr
  intro hw
  rcases ws_cases hw with rfl | rfl | rfl | rfl <;> exact absurd h (by decide)

theorem goodEnd_not_ws {c : Char} (h : goodEnd c = true) :
    isJsWs c = false := by
  apply Bool.eq_false_iff.mpr
  intro hw
  rcases ws_cases hw with rfl | rfl | rfl | rfl <;> exact absurd h (by decide)

theorem dropWhile_eq_self_of_head {p : Char → Bool} {l : List Char} {c : Char}
    (h : l.head? = some c) (hc : p c = false) : l.dropWhile p = l := by
  cases l with
  | nil => rfl
  | cons a m =>
    have ha : a = c := by simpa using h
    subst ha
    simp [List.dropWhile_cons, hc]

theorem jsTrim_eq_self {l : List Char} {c0 c1 : Char}
    (h0 : l.head? = some c0) (hw0 : isJsWs c0 = false)
    (h1 : l.getLast? = some c1) (hw1 : isJsWs c1 = false) : jsTrim l = l := by
  unfold jsTrim
  rw [dropWhile_eq_self_of_head h0 hw0]
  rw [dropWhile_eq_self_of_head
    (by rw [← List.getLast?_eq_head?_reverse]; exact h1) hw1,
    List.reverse_reverse]

theorem jsTrim_prefix_of_head {a : Char} {l : List Char}
    (ha : isJsWs a = false) : jsTrim (a :: l) <+: a :: l := by
  unfold jsTrim
  rw [dropWhile_eq_self_of_head (l := a :: l) (c := a) rfl ha]
  have h2 := List.dropWhile_suffix (l := (a :: l).reverse) isJsWs
  have h3 := List.reverse_prefix.mpr h2
  rw [List.reverse_reverse] at h3
  exact h3

theorem prefix_cons_head {α} {l1 l2 : List α} {a : α}
    (h : l1 <+: a :: l2) (hne : l1 ≠ []) : l1.head? = some a := by
  obtain ⟨k, hk⟩ := h
  cases l1 with
  | nil => exact absurd rfl hne
  | cons b m =>
    simp only [List.cons_append] at hk
    injection hk with hb _
    subst hb
    rfl

theorem jsonParse_facts {t : List Char} {v : Json} (h : jsonParse t = some v) :
    ∃ c0 c1, (jsTrim t).head? = some c0 ∧ (jsTrim t).getLast? = some c1 ∧
      startChar c0 = true ∧ goodEnd c1 = true ∧
      parseF PTag.val (jsonFuel (jsTrim t)) (jsTrim t) = some (v, []) := by
  unfold jsonParse at h
  cases hp : parseF PTag.val (jsonFuel (jsTrim t)) (jsTrim t) with
  | none => rw [hp] at h; simp at h
  | some pr =>
    obtain ⟨v1, r⟩ := pr
    rw [hp] at h
    simp only [] at h
    split at h
    · next hr =>
      subst hr
      have hv1 : v1 = v := by simpa using h
      subst hv1
      obtain ⟨pre, c0, c1, hsplit, hh, hl, hg, hs⟩ :=
        parseF_consumed _ _ _ _ _ hp
      rw [List.append_nil] at hsplit
      rw [← hsplit] at hh hl
      exact ⟨c0, c1, hh, hl, hs rfl, hg, rfl⟩
    · simp at h

theorem jsonParse_trim_self {t : List Char} {v : Json}
    (h : jsonParse t = some v) : jsonParse (jsTrim t) = some v := by
  obtain ⟨c0, c1, hh, hl, hsc, hge, hp⟩ := jsonParse_facts h
  have huu : jsTrim (jsTrim t) = jsTrim t :=
    jsTrim_eq_self hh (startChar_not_ws hsc) hl (goodEnd_not_ws hge)
  unfold jsonParse
  rw [huu, hp]
  simp

theorem fenceJson_length : fenceJson.length = 7 := rfl

theorem fence3_getLast? : fence3.getLast? = some btick := rfl

/-- C9: for every JSON-parsable text `t`, normalizing the text obtained by
wrapping `t` in a fenced-code marker (either the ```` ```json ```` form or
the plain ```` ``` ```` form, with a ```` ``` ```` suffix) yields the same
structure as normalizing `t` unwrapped. -/
theorem claim_C9_fence_roundtrip (t : List Char) (v : Json)
    (h : jsonParse t = some v) :
    parseJsonResponse (fenceJson ++ t ++ fence3) = parseJsonResponse t ∧
    parseJsonResponse (fence3 ++ t ++ fence3) = parseJsonResponse t ∧
    parseJsonResponse t = some v := by
  obtain ⟨c0, c1, hh, hl, hsc, hge, hp⟩ := jsonParse_facts h
  have hc0ws : isJsWs c0 = false := startChar_not_ws hsc
  have hc1ws : isJsWs c1 = false := goodEnd_not_ws hge
  have hc0bt : c0 ≠ btick := by
    intro he
    rw [he] at hsc
    exact absurd hsc (by decide)
  have hc1bt : c1 ≠ btick := by
    intro he
    rw [he] at hge
    exact absurd hge (by decide)
  have huu : jsTrim (jsTrim t) = jsTrim t := jsTrim_eq_self hh hc0ws hl hc1ws
  -- JSON.parse of the trimmed text succeeds
  have hjpu : jsonParse (jsTrim t) = some v := jsonParse_trim_self h
  -- the unwrapped side: fence stripping is the identity on `jsTrim t`
  have hnp1 : fenceJson.isPrefixOf (jsTrim t) = false := by
    apply Bool.eq_false_iff.mpr
    intro hb
    obtain ⟨k, hk⟩ := List.isPrefixOf_iff_prefix.mp hb
    rw [← hk] at hh
    have : btick = c0 := by simpa [fenceJson, fence3] using hh
    exact hc0bt this.symm
  have hnp2 : fence3.isPrefixOf (jsTrim t) = false := by
    apply Bool.eq_false_iff.mpr
    intro hb
    obtain ⟨k, hk⟩ := List.isPrefixOf_iff_prefix.mp hb
    rw [← hk] at hh
    have : btick = c0 := by simpa [fence3] using hh
    exact hc0bt this.symm
  have hns : fence3.isSuffixOf (jsTrim t) = false := by
    apply Bool.eq_false_iff.mpr
    intro hb
    obtain ⟨k, hk⟩ := List.isSuffixOf_iff_suffix.mp hb
    rw [← hk] at hl
    have h2 : (k ++ fence3).getLast? = some btick :=
      getLast?_append_last k fence3_getLast?
    rw [h2] at hl
    have hbc : btick = c1 := by simpa using hl
    exact hc1bt hbc.symm
  have hstrip_t : stripFence t = jsTrim t := by
    have hA : ¬ (fenceJson.isPrefixOf (jsTrim t) = true) := by simp [hnp1]
    have hB : ¬ (fence3.isPrefixOf (jsTrim t) = true) := by simp [hnp2]
    have hC : ¬ (fence3.isSuffixOf (jsTrim t) = true) := by simp [hns]
    unfold stripFence stripHead stripTail
    rw [if_neg hA, if_neg hB, if_neg hC]
  have hresp_t : parseJsonResponse t = some v := by
    unfold parseJsonResponse
    rw [hstrip_t, huu]
    exact hjpu
  -- common facts for both wrapped forms
  have htail : ∀ x : List Char, stripTail (x ++ fence3) = x := by
    intro x
    have hsuf : fence3.isSuffixOf (x ++ fence3) = true := by
      simp [List.isSuffixOf_iff_suffix]
    unfold stripTail
    rw [if_pos hsuf]
    have hlen : (x ++ fence3).length - 3 = x.length := by simp [fence3, btick]
    rw [hlen, List.take_left]
  -- wrapped form 1: ```json prefix
  have hw1trim : jsTrim (fenceJson ++ t ++ fence3) = fenceJson ++ t ++ fence3 := by
    refine @jsTrim_eq_self _ btick btick ?_ (by decide) ?_ (by decide)
    · exact head?_append_first (head?_append_first rfl)
    · exact getLast?_append_last _ fence3_getLast?
  have hw1head : stripHead (fenceJson ++ t ++ fence3) = t ++ fence3 := by
    have hpos : fenceJson.isPrefixOf (fenceJson ++ t ++ fence3) = true := by
      simp only [List.isPrefixOf_iff_prefix]
      exact ⟨t ++ fence3, by simp⟩
    unfold stripHead
    rw [if_pos hpos]
    rw [show (7 : Nat) = fenceJson.length from rfl, List.append_assoc,
      List.drop_left]
  have hresp_w1 : parseJsonResponse (fenceJson ++ t ++ fence3) = some v := by
    unfold parseJsonResponse stripFence
    rw [hw1trim, hw1head, htail]
    exact hjpu
  -- wrapped form 2: plain ``` prefix
  have hw2trim : jsTrim (fence3 ++ t ++ fence3) = fence3 ++ t ++ fence3 := by
    refine @jsTrim_eq_self _ btick btick ?_ (by decide) ?_ (by decide)
    · exact head?_append_first (head?_append_first rfl)
    · exact getLast?_append_last _ fence3_getLast?
  have hw2nj : fenceJson.isPrefixOf (fence3 ++ t ++ fence3) = false := by
    apply Bool.eq_false_iff.mpr
    intro hb
    have hpref := List.isPrefixOf_iff_prefix.mp hb
    rw [List.append_assoc] at hpref
    have hpref2 : ['j', 's', 'o', 'n'] <+: t ++ fence3 :=
      (List.prefix_append_right_inj fence3).mp
        (by simpa [fenceJson, List.append_assoc] using hpref)
    cases t with
    | nil => simp [jsTrim] at hh
    | cons a t' =>
      rw [List.cons_append] at hpref2
      have hhd : (['j', 's', 'o', 'n'] : List Char).head? = some a :=
        prefix_cons_head hpref2 (by simp)
      have hja : ('j' : Char) = a := by simpa using hhd
      subst hja
      have hupre : jsTrim ('j' :: t') <+: 'j' :: t' :=
        jsTrim_prefix_of_head (by decide)
      have huh : (jsTrim ('j' :: t')).head? = some 'j' :=
        prefix_cons_head hupre (ne_nil_of_head?_some hh)
      rw [hh] at huh
      have hcj : c0 = 'j' := by simpa using huh
      rw [hcj] at hsc
      exact absurd hsc (by decide)
  have hw2head : stripHead (fence3 ++ t ++ fence3) = t ++ fence3 := by
    have hneg : ¬ (fenceJson.isPrefixOf (fence3 ++ t ++ fence3) = true) := by
      intro hb
      rw [hw2nj] at hb
      exact Bool.false_ne_true hb
    have hpos : fence3.isPrefixOf (fence3 ++ t ++ fence3) = true := by
      simp only [List.isPrefixOf_iff_prefix]
      exact ⟨t ++ fence3, by simp⟩
    unfold stripHead
    rw [if_neg hneg, if_pos hpos]
    rw [show (3 : Nat) = fence3.length from rfl, List.append_assoc,
      List.drop_left]
  have hresp_w2 : parseJsonResponse (fence3 ++ t ++ fence3) = some v := by
    unfold parseJsonResponse stripFence
    rw [hw2trim, hw2head, htail]
    exact hjpu
  exact ⟨hresp_w1.trans hresp_t.symm, hresp_w2.trans hresp_t.symm, hresp_t⟩

theorem claim_C9_witness :
    parseJsonResponse (fenceJson ++ "[1, true]".data ++ fence3) =
      parseJsonResponse "[1, true]".data ∧
    parseJsonResponse (fence3 ++ "[1, true]".data ++ fence3) =
      parseJsonResponse "[1, true]".data ∧
    parseJsonResponse "[1, true]".data =
      some (Json.jarr [Json.jnum ['1'], Json.jbool true]) :=
  claim_C9_fence_roundtrip "[1, true]".data
    (Json.jarr [Json.jnum ['1'], Json.jbool true]) rfl

theorem getNextApiKey_empty {now : Nat} {s : SelectorState}
    (h : s.apiKeys = []) : getNextApiKey now s = (none, s) := by
  unfold getNextApiKey
  rw [if_pos (by rw [h]; rfl)]

theorem callGeminiLoop_step_none {provider : Nat → Except String String}
    {now attempt remaining : Nat} {lastError : Option String}
    {s s1 : SelectorState} {calls : Nat} {delays : List Nat}
    (h1 : getNextApiKey now s = (none, s1)) :
    callGeminiLoop provider now attempt (remaining + 1) lastError s calls delays =
      ⟨Except.error "No API keys available", s1, calls, delays⟩ := by
  conv_lhs => unfold callGeminiLoop
  rw [h1]

theorem callGeminiAPI_empty {provider : Nat → Except String String}
    {now : Nat} {s : SelectorState} {calls : Nat} (h : s.apiKeys = []) :
    callGeminiAPI provider now s calls =
      ⟨Except.error "No API keys available", s, calls, []⟩ :=
  callGeminiLoop_step_none (getNextApiKey_empty h)

theorem invoke_empty {provider : Nat → Except String String} {now : Nat}
    {p : String} {g : GenState} (h : g.sel.apiKeys = []) :
    invoke provider now p g =
      (Except.error "No API keys available",
       ⟨g.sel, g.calls, g.prompts ++ [p], g.delays⟩) := by
  simp only [invoke, callGeminiAPI_empty h]
  simp

theorem generateHTML_empty {provider : Nat → Except String String} {now : Nat}
    {ctx : GenerationContext} {g : GenState} (h : g.sel.apiKeys = []) :
    generateHTML provider now ctx g =
      (Except.ok (fallbackHtmlFile ctx),
       ⟨g.sel, g.calls, g.prompts ++ [htmlPromptText ctx], g.delays⟩) := by
  unfold generateHTML
  rw [invoke_empty h]

theorem generateCSS_empty {provider : Nat → Except String String} {now : Nat}
    {ctx : GenerationContext} {hc : String} {g : GenState}
    (h : g.sel.apiKeys = []) :
    generateCSS provider now ctx hc g =
      (Except.ok fallbackCssFile,
       ⟨g.sel, g.calls, g.prompts ++ [cssPromptText ctx], g.delays⟩) := by
  unfold generateCSS
  rw [invoke_empty h]

theorem generateJS_empty {provider : Nat → Except String String} {now : Nat}
    {ctx : GenerationContext} {g : GenState} (h : g.sel.apiKeys = []) :
    generateJS provider now ctx g =
      (Except.ok fallbackJsFile,
       ⟨g.sel, g.calls, g.prompts ++ [jsPromptText ctx], g.delays⟩) := by
  unfold generateJS
  rw [invoke_empty h]

theorem generatePage_empty {provider : Nat → Except String String} {now : Nat}
    {pageName : String} {ctx : GenerationContext} {g : GenState}
    (h : g.sel.apiKeys = []) :
    generatePage provider now pageName ctx g =
      (Except.ok (fallbackPageFile pageName ctx),
       ⟨g.sel, g.calls, g.prompts ++ [pagePromptText pageName ctx], g.delays⟩) := by
  unfold generatePage
  rw [invoke_empty h]

theorem generateSEO_empty {provider : Nat → Except String String} {now : Nat}
    {ctx : GenerationContext} {g : GenState} (h : g.sel.apiKeys = []) :
    generateSEO provider now ctx g =
      (Except.ok (fallbackSeo ctx),
       ⟨g.sel, g.calls, g.prompts ++ [seoPromptText ctx], g.delays⟩) := by
  unfold generateSEO
  rw [invoke_empty h]

theorem genPages_empty {provider : Nat → Except String String} {now : Nat}
    {ctx : GenerationContext} :
    ∀ (pages : List String) (g : GenState), g.sel.apiKeys = [] →
      genPages provider now ctx pages g =
        (Except.ok ((pages.filter (fun p => !(p == "home"))).map
          (fun p => fallbackPageFile p ctx)),
         ⟨g.sel, g.calls, g.prompts ++ pagePrompts ctx pages, g.delays⟩) := by
  intro pages
  induction pages with
  | nil => intro g h; simp [genPages, pagePrompts]
  | cons pageName rest ih =>
    intro g h
    by_cases hp : pageName = "home"
    · subst hp
      simp only [genPages, if_pos rfl]
      rw [ih g h]
      simp [pagePrompts]
    · simp only [genPages, if_neg hp]
      rw [generatePage_empty h]
      simp only []
      rw [ih ⟨g.sel, g.calls, g.prompts ++ [pagePromptText pageName ctx],
        g.delays⟩ h]
      simp [pagePrompts, hp, List.filter_cons]

theorem generateWebsite_empty (provider : Nat → Except String String)
    (now : Nat) (prompt : String) (language : Language) (type : WebsiteType)
    (selectedPages selectedOptions : List String) (includeAdmin : Bool)
    (referenceUrl : Option String) (g : GenState) (h : g.sel.apiKeys = []) :
    generateWebsite provider now prompt language type selectedPages
        selectedOptions includeAdmin referenceUrl g =
      (Except.ok
        ⟨allFallbackFiles
            (mkContext prompt language type selectedPages selectedOptions
              includeAdmin referenceUrl)
            type selectedPages includeAdmin,
         fallbackSeo
            (mkContext prompt language type selectedPages selectedOptions
              includeAdmin referenceUrl)⟩,
       ⟨g.sel, g.calls,
        g.prompts ++
          ([htmlPromptText (mkContext prompt language type selectedPages
              selectedOptions includeAdmin referenceUrl),
            cssPromptText (mkContext prompt language type selectedPages
              selectedOptions includeAdmin referenceUrl),
            jsPromptText (mkContext prompt language type selectedPages
              selectedOptions includeAdmin referenceUrl)] ++
            (if type = WebsiteType.website ∧ selectedPages.length > 0 then
              pagePrompts (mkContext prompt language type selectedPages
                selectedOptions includeAdmin referenceUrl) selectedPages
            else []) ++
            (if includeAdmin then
              [pagePromptText "admin" (mkContext prompt language type
                selectedPages selectedOptions includeAdmin referenceUrl)]
            else []) ++
            [seoPromptText (mkContext prompt language type selectedPages
              selectedOptions includeAdmin referenceUrl)]),
        g.delays⟩) := by
  by_cases hmulti : type = WebsiteType.website ∧ selectedPages.length > 0 <;>
    by_cases hadmin : includeAdmin <;>
      simp [generateWebsite, hmulti, hadmin, generateHTML_empty,
        generateCSS_empty, generateJS_empty, generateSEO_empty,
        generatePage_empty, genPages_empty, h, allFallbackFiles]

/-- C5: with zero configured credentials the pipeline returns the
all-fallback artifact and never attempts a provider network call: the call
counter, selector state and backoff-delay trace are untouched. -/
theorem claim_C5_zero_credentials (provider : Nat → Except String String)
    (now : Nat) (prompt : String) (language : Language) (type : WebsiteType)
    (selectedPages selectedOptions : List String) (includeAdmin : Bool)
    (referenceUrl : Option String) (g : GenState) (h : g.sel.apiKeys = []) :
    (generateWebsite provider now prompt language type selectedPages
        selectedOptions includeAdmin referenceUrl g).1 =
      Except.ok
        ⟨allFallbackFiles
            (mkContext prompt language type selectedPages selectedOptions
              includeAdmin referenceUrl)
            type selectedPages includeAdmin,
         fallbackSeo
            (mkContext prompt language type selectedPages selectedOptions
              includeAdmin referenceUrl)⟩ ∧
    (generateWebsite provider now prompt language type selectedPages
        selectedOptions includeAdmin referenceUrl g).2.calls = g.calls ∧
    (generateWebsite provider now prompt language type selectedPages
        selectedOptions includeAdmin referenceUrl g).2.sel = g.sel ∧
    (generateWebsite provider now prompt language type selectedPages
        selectedOptions includeAdmin referenceUrl g).2.delays = g.delays := by
  rw [generateWebsite_empty provider now prompt language type selectedPages
    selectedOptions includeAdmin referenceUrl g h]
  exact ⟨rfl, rfl, rfl, rfl⟩

theorem claim_C5_witness :
    (generateWebsite (fun _ => Except.ok "unused") 0 "p" Language.en
        WebsiteType.website ["home", "about"] [] true none
        ⟨⟨[], [], 0, 0⟩, 5, [], []⟩).1 =
      Except.ok
        ⟨allFallbackFiles
            (mkContext "p" Language.en WebsiteType.website ["home", "about"]
              [] true none)
            WebsiteType.website ["home", "about"] true,
         fallbackSeo
            (mkContext "p" Language.en WebsiteType.website ["home", "about"]
              [] true none)⟩ ∧
    (generateWebsite (fun _ => Except.ok "unused") 0 "p" Language.en
        WebsiteType.website ["home", "about"] [] true none
        ⟨⟨[], [], 0, 0⟩, 5, [], []⟩).2.calls = 5 ∧
    (generateWebsite (fun _ => Except.ok "unused") 0 "p" Language.en
        WebsiteType.website ["home", "about"] [] true none
        ⟨⟨[], [], 0, 0⟩, 5, [], []⟩).2.sel = ⟨[], [], 0, 0⟩ ∧
    (generateWebsite (fun _ => Except.ok "unused") 0 "p" Language.en
        WebsiteType.website ["home", "about"] [] true none
        ⟨⟨[], [], 0, 0⟩, 5, [], []⟩).2.delays = [] :=
  claim_C5_zero_credentials (fun _ => Except.ok "unused") 0 "p" Language.en
    WebsiteType.website ["home", "about"] [] true none
    ⟨⟨[], [], 0, 0⟩, 5, [], []⟩ rfl

theorem generateHTML_ok (provider : Nat → Except String String) (now : Nat)
    (ctx : GenerationContext) (g : GenState) :
    ∃ f g', generateHTML provider now ctx g = (Except.ok f, g') := by
  unfold generateHTML
  generalize invoke provider now (htmlPromptText ctx) g = iv
  obtain ⟨res, g1⟩ := iv
  cases res with
  | error e => simp only []; exact ⟨_, _, rfl⟩
  | ok text =>
    simp only []
    cases hp : parseFileResponse text with
    | none => simp only []; exact ⟨_, _, rfl⟩
    | some result =>
      simp only []
      by_cases hlt : result.content.length < 5000
      · rw [if_pos hlt]
        generalize invoke provider now
          (htmlPromptText ctx ++ htmlStricterSuffix result.content.length)
          g1 = iv2
        obtain ⟨res2, g2⟩ := iv2
        cases res2 with
        | error e => simp only []; exact ⟨_, _, rfl⟩
        | ok text2 =>
          simp only []
          cases parseFileResponse text2 with
          | none => simp only []; exact ⟨_, _, rfl⟩
          | some r2 => simp only []; exact ⟨_, _, rfl⟩
      · rw [if_neg hlt]
        exact ⟨_, _, rfl⟩

theorem generateCSS_ok (provider : Nat → Except String String) (now : Nat)
    (ctx : GenerationContext) (hc : String) (g : GenState) :
    ∃ f g', generateCSS provider now ctx hc g = (Except.ok f, g') := by
  unfold generateCSS
  generalize invoke provider now (cssPromptText ctx) g = iv
  obtain ⟨res, g1⟩ := iv
  cases res with
  | error e => simp only []; exact ⟨_, _, rfl⟩
  | ok text =>
    simp only []
    cases hp : parseFileResponse text with
    | none => simp only []; exact ⟨_, _, rfl⟩
    | some result =>
      simp only []
      by_cases hlt : result.content.length < 3000
      · rw [if_pos hlt]
        generalize invoke provider now
          (cssPromptText ctx ++ cssStricterSuffix result.content.length)
          g1 = iv2
        obtain ⟨res2, g2⟩ := iv2
        cases res2 with
        | error e => simp only []; exact ⟨_, _, rfl⟩
        | ok text2 =>
          simp only []
          cases parseFileResponse text2 with
          | none => simp only []; exact ⟨_, _, rfl⟩
          | some r2 => simp only []; exact ⟨_, _, rfl⟩
      · rw [if_neg hlt]
        exact ⟨_, _, rfl⟩

theorem generateJS_ok (provider : Nat → Except String String) (now : Nat)
    (ctx : GenerationContext) (g : GenState) :
    ∃ f g', generateJS provider now ctx g = (Except.ok f, g') := by
  unfold generateJS
  generalize invoke provider now (jsPromptText ctx) g = iv
  obtain ⟨res, g1⟩ := iv
  cases res with
  | error e => simp only []; exact ⟨_, _, rfl⟩
  | ok text =>
    simp only []
    cases hp : parseFileResponse text with
    | none => simp only []; exact ⟨_, _, rfl⟩
    | some result =>
      simp only []
      by_cases hlt : result.content.length < 2000
      · rw [if_pos hlt]
        generalize invoke provider now
          (jsPromptText ctx ++ jsStricterSuffix result.content.length)
          g1 = iv2
        obtain ⟨res2, g2⟩ := iv2
        cases res2 with
        | error e => simp only []; exact ⟨_, _, rfl⟩
        | ok text2 =>
          simp only []
          cases parseFileResponse text2 with
          | none => simp only []; exact ⟨_, _, rfl⟩
          | some r2 => simp only []; exact ⟨_, _, rfl⟩
      · rw [if_neg hlt]
        exact ⟨_, _, rfl⟩

theorem generatePage_ok (provider : Nat → Except String String) (now : Nat)
    (pageName : String) (ctx : GenerationContext) (g : GenState) :
    ∃ f g', generatePage provider now pageName ctx g = (Except.ok f, g') := by
  unfold generatePage
  generalize invoke provider now (pagePromptText pageName ctx) g = iv
  obtain ⟨res, g1⟩ := iv
  cases res with
  | error e => simp only []; exact ⟨_, _, rfl⟩
  | ok text =>
    simp only []
    cases parseFileResponse text with
    | none => simp only []; exact ⟨_, _, rfl⟩
    | some result => simp only []; exact ⟨_, _, rfl⟩

theorem generateSEO_ok (provider : Nat → Except String String) (now : Nat)
    (ctx : GenerationContext) (g : GenState) :
    ∃ seo g', generateSEO provider now ctx g = (Except.ok seo, g') := by
  unfold generateSEO
  generalize invoke provider now (seoPromptText ctx) g = iv
  obtain ⟨res, g1⟩ := iv
  cases res with
  | error e => simp only []; exact ⟨_, _, rfl⟩
  | ok text =>
    simp only []
    cases parseSeoResponse text with
    | none => simp only []; exact ⟨_, _, rfl⟩
    | some seo => simp only []; exact ⟨_, _, rfl⟩

theorem genPages_ok (provider : Nat → Except String String) (now : Nat)
    (ctx : GenerationContext) :
    ∀ (pages : List String) (g : GenState),
      ∃ fs g', genPages provider now ctx pages g = (Except.ok fs, g') := by
  intro pages
  induction pages with
  | nil => intro g; exact ⟨[], g, rfl⟩
  | cons pageName rest ih =>
    intro g
    by_cases hp : pageName = "home"
    · subst hp
      obtain ⟨fs, g', hrec⟩ := ih g
      exact ⟨fs, g', by simp only [genPages, if_pos rfl]; exact hrec⟩
    · obtain ⟨f, g1, hpage⟩ := generatePage_ok provider now pageName ctx g
      obtain ⟨fs, g2, hrec⟩ := ih g1
      refine ⟨f :: fs, g2, ?_⟩
      simp only [genPages, if_neg hp]
      rw [hpage]
      simp only []
      rw [hrec]

/-- C1 (amended): no failure ever escapes the Generation Pipeline to the
caller — for every provider behavior and selector state, including an empty
key pool, `generateWebsite` returns a result normally; even the no-keys
error raised inside the invoker is caught by the steps and converted to
fallback content. -/
theorem claim_C1_no_failure_escapes (provider : Nat → Except String String)
    (now : Nat) (prompt : String) (language : Language) (type : WebsiteType)
    (selectedPages selectedOptions : List String) (includeAdmin : Bool)
    (referenceUrl : Option String) (g : GenState) :
    ∃ d g', generateWebsite provider now prompt language type selectedPages
      selectedOptions includeAdmin referenceUrl g = (Except.ok d, g') := by
  simp only [generateWebsite]
  obtain ⟨f1, g1, h1⟩ := generateHTML_ok provider now
    (mkContext prompt language type selectedPages selectedOptions
      includeAdmin referenceUrl) g
  rw [h1]
  simp only []
  obtain ⟨f2, g2, h2⟩ := generateCSS_ok provider now _ f1.content g1
  rw [h2]
  simp only []
  obtain ⟨f3, g3, h3⟩ := generateJS_ok provider now _ g2
  rw [h3]
  simp only []
  by_cases hmulti : type = WebsiteType.website ∧ selectedPages.length > 0
  · rw [if_pos hmulti]
    obtain ⟨fs, g4, h4⟩ := genPages_ok provider now _ selectedPages g3
    rw [h4]
    simp only []
    by_cases hadmin : includeAdmin
    · rw [if_pos hadmin]
      obtain ⟨fa, g5, h5⟩ := generatePage_ok provider now "admin" _ g4
      rw [h5]
      simp only []
      obtain ⟨seo, g6, h6⟩ := generateSEO_ok provider now _ g5
      rw [h6]
      exact ⟨_, _, rfl⟩
    · rw [if_neg hadmin]
      simp only []
      obtain ⟨seo, g6, h6⟩ := generateSEO_ok provider now _ g4
      rw [h6]
      exact ⟨_, _, rfl⟩
  · rw [if_neg hmulti]
    simp only []
    by_cases hadmin : includeAdmin
    · rw [if_pos hadmin]
      obtain ⟨fa, g5, h5⟩ := generatePage_ok provider now "admin" _ g3
      rw [h5]
      simp only []
      obtain ⟨seo, g6, h6⟩ := generateSEO_ok provider now _ g5
      rw [h6]
      exact ⟨_, _, rfl⟩
    · rw [if_neg hadmin]
      simp only []
      obtain ⟨seo, g6, h6⟩ := generateSEO_ok provider now _ g3
      rw [h6]
      exact ⟨_, _, rfl⟩

/-- C1 counterexample: with an empty key pool the very first call does not
surface any failure to the caller — `generateWebsite` returns the
all-fallback artifact normally instead of raising the no-credentials
error, contradicting the claim that this failure is caller-visible. -/
theorem claim_C1_counterexample :
    (generateWebsite (fun _ => Except.error "network down") 0 "p" Language.en
        WebsiteType.landing [] [] false none ⟨⟨[], [], 0, 0⟩, 0, [], []⟩).1 =
      Except.ok
        ⟨[fallbackHtmlFile (mkContext "p" Language.en WebsiteType.landing
            [] [] false none),
          fallbackCssFile, fallbackJsFile],
         fallbackSeo (mkContext "p" Language.en WebsiteType.landing
            [] [] false none)⟩ := by
  rw [generateWebsite_empty (fun _ => Except.error "network down") 0 "p"
    Language.en WebsiteType.landing [] [] false none
    ⟨⟨[], [], 0, 0⟩, 0, [], []⟩ rfl]
  rfl

theorem callGeminiAPI_allfail {provider : Nat → Except String String}
    {now : Nat} {s : SelectorState} {calls : Nat}
    (hfail : ∀ n, ∃ e, provider n = Except.error e) :
    ∃ e, (callGeminiAPI provider now s calls).result = Except.error e := by
  by_cases hk : s.apiKeys = []
  · rw [callGeminiAPI_empty hk]
    exact ⟨_, rfl⟩
  · rcases callGeminiAPI_cases provider now s calls hk with
      ⟨t, s', hok, hc⟩ | ⟨e0, t, s', h0, hok, hc⟩ |
      ⟨e0, e1, t, s', h0, h1, hok, hc⟩ | ⟨e0, e1, e2, s', h0, h1, h2, hc⟩
    · obtain ⟨e, he⟩ := hfail calls
      rw [he] at hok
      simp at hok
    · obtain ⟨e, he⟩ := hfail (calls + 1)
      rw [he] at hok
      simp at hok
    · obtain ⟨e, he⟩ := hfail (calls + 2)
      rw [he] at hok
      simp at hok
    · rw [hc]
      exact ⟨e2, rfl⟩

theorem invoke_fail {provider : Nat → Except String String} {now : Nat}
    {p : String} {g : GenState}
    (hfail : ∀ n, ∃ e, provider n = Except.error e) :
    ∃ e g1, invoke provider now p g = (Except.error e, g1) := by
  obtain ⟨e, he⟩ :=
    @callGeminiAPI_allfail provider now g.sel g.calls hfail
  refine ⟨e, ⟨(callGeminiAPI provider now g.sel g.calls).sel,
    (callGeminiAPI provider now g.sel g.calls).calls,
    g.prompts ++ [p],
    g.delays ++ (callGeminiAPI provider now g.sel g.calls).delays⟩, ?_⟩
  simp only [invoke]
  rw [he]

theorem generateHTML_fail {provider : Nat → Except String String} {now : Nat}
    {ctx : GenerationContext} {g : GenState}
    (hfail : ∀ n, ∃ e, provider n = Except.error e) :
    ∃ g', generateHTML provider now ctx g =
      (Except.ok (fallbackHtmlFile ctx), g') := by
  obtain ⟨e, g1, hi⟩ := invoke_fail (p := htmlPromptText ctx) (g := g) hfail
  refine ⟨g1, ?_⟩
  unfold generateHTML
  rw [hi]

theorem generateCSS_fail {provider : Nat → Except String String} {now : Nat}
    {ctx : GenerationContext} {hc : String} {g : GenState}
    (hfail : ∀ n, ∃ e, provider n = Except.error e) :
    ∃ g', generateCSS provider now ctx hc g = (Except.ok fallbackCssFile, g') := by
  obtain ⟨e, g1, hi⟩ := invoke_fail (p := cssPromptText ctx) (g := g) hfail
  refine ⟨g1, ?_⟩
  unfold generateCSS
  rw [hi]

theorem generateJS_fail {provider : Nat → Except String String} {now : Nat}
    {ctx : GenerationContext} {g : GenState}
    (hfail : ∀ n, ∃ e, provider n = Except.error e) :
    ∃ g', generateJS provider now ctx g = (Except.ok fallbackJsFile, g') := by
  obtain ⟨e, g1, hi⟩ := invoke_fail (p := jsPromptText ctx) (g := g) hfail
  refine ⟨g1, ?_⟩
  unfold generateJS
  rw [hi]

theorem generatePage_fail {provider : Nat → Except String String} {now : Nat}
    {pageName : String} {ctx : GenerationContext} {g : GenState}
    (hfail : ∀ n, ∃ e, provider n = Except.error e) :
    ∃ g', generatePage provider now pageName ctx g =
      (Except.ok (fallbackPageFile pageName ctx), g') := by
  obtain ⟨e, g1, hi⟩ :=
    invoke_fail (p := pagePromptText pageName ctx) (g := g) hfail
  refine ⟨g1, ?_⟩
  unfold generatePage
  rw [hi]

theorem generateSEO_fail {provider : Nat → Except String String} {now : Nat}
    {ctx : GenerationContext} {g : GenState}
    (hfail : ∀ n, ∃ e, provider n = Except.error e) :
    ∃ g', generateSEO provider now ctx g = (Except.ok (fallbackSeo ctx), g') := by
  obtain ⟨e, g1, hi⟩ := invoke_fail (p := seoPromptText ctx) (g := g) hfail
  refine ⟨g1, ?_⟩
  unfold generateSEO
  rw [hi]

theorem genPages_fail {provider : Nat → Except String String} {now : Nat}
    {ctx : GenerationContext}
    (hfail : ∀ n, ∃ e, provider n = Except.error e) :
    ∀ (pages : List String) (g : GenState),
      ∃ g', genPages provider now ctx pages g =
        (Except.ok ((pages.filter (fun p => !(p == "home"))).map
          (fun p => fallbackPageFile p ctx)), g') := by
  intro pages
  induction pages with
  | nil => intro g; exact ⟨g, rfl⟩
  | cons pageName rest ih =>
    intro g
    by_cases hp : pageName = "home"
    · subst hp
      obtain ⟨g', hrec⟩ := ih g
      refine ⟨g', ?_⟩
      simp only [genPages, if_pos rfl]
      rw [hrec]
      simp
    · obtain ⟨g1, hpage⟩ := @generatePage_fail provider now pageName ctx g hfail
      obtain ⟨g2, hrec⟩ := ih g1
      refine ⟨g2, ?_⟩
      simp only [genPages, if_neg hp]
      rw [hpage]
      simp only []
      rw [hrec]
      simp [hp]

theorem generateWebsite_allfail (provider : Nat → Except String String)
    (now : Nat) (prompt : String) (language : Language) (type : WebsiteType)
    (selectedPages selectedOptions : List String) (includeAdmin : Bool)
    (referenceUrl : Option String) (g : GenState)
    (hfail : ∀ n, ∃ e, provider n = Except.error e) :
    ∃ g', generateWebsite provider now prompt language type selectedPages
        selectedOptions includeAdmin referenceUrl g =
      (Except.ok
        ⟨allFallbackFiles
            (mkContext prompt language type selectedPages selectedOptions
              includeAdmin referenceUrl)
            type selectedPages includeAdmin,
         fallbackSeo
            (mkContext prompt language type selectedPages selectedOptions
              includeAdmin referenceUrl)⟩, g') := by
  simp only [generateWebsite]
  obtain ⟨g1, h1⟩ := @generateHTML_fail provider now
    (mkContext prompt language type selectedPages selectedOptions
      includeAdmin referenceUrl) g hfail
  rw [h1]
  simp only []
  obtain ⟨g2, h2⟩ := @generateCSS_fail provider now
    (mkContext prompt language type selectedPages selectedOptions
      includeAdmin referenceUrl)
    (fallbackHtmlFile (mkContext prompt language type selectedPages
      selectedOptions includeAdmin referenceUrl)).content g1 hfail
  rw [h2]
  simp only []
  obtain ⟨g3, h3⟩ := generateJS_fail (g := g2) hfail
  rw [h3]
  simp only []
  by_cases hmulti : type = WebsiteType.website ∧ selectedPages.length > 0
  · rw [if_pos hmulti]
    obtain ⟨g4, h4⟩ := genPages_fail hfail selectedPages g3
    rw [h4]
    simp only []
    by_cases hadmin : includeAdmin
    · rw [if_pos hadmin]
      obtain ⟨g5, h5⟩ := @generatePage_fail provider now "admin"
        (mkContext prompt language type selectedPages selectedOptions
          includeAdmin referenceUrl) g4 hfail
      rw [h5]
      simp only []
      obtain ⟨g6, h6⟩ := generateSEO_fail (g := g5) hfail
      rw [h6]
      refine ⟨g6, ?_⟩
      simp [allFallbackFiles, hmulti, hadmin]
    · rw [if_neg hadmin]
      simp only []
      obtain ⟨g6, h6⟩ := generateSEO_fail (g := g4) hfail
      rw [h6]
      refine ⟨g6, ?_⟩
      simp [allFallbackFiles, hmulti, hadmin]
  · rw [if_neg hmulti]
    simp only []
    by_cases hadmin : includeAdmin
    · rw [if_pos hadmin]
      obtain ⟨g5, h5⟩ := @generatePage_fail provider now "admin"
        (mkContext prompt language type selectedPages selectedOptions
          includeAdmin referenceUrl) g3 hfail
      rw [h5]
      simp only []
      obtain ⟨g6, h6⟩ := generateSEO_fail (g := g5) hfail
      rw [h6]
      refine ⟨g6, ?_⟩
      simp [allFallbackFiles, hmulti, hadmin]
    · rw [if_neg hadmin]
      simp only []
      obtain ⟨g6, h6⟩ := generateSEO_fail (g := g3) hfail
      rw [h6]
      refine ⟨g6, ?_⟩
      simp [allFallbackFiles, hmulti, hadmin]

/-- C4: when every provider call fails, a `website`-type run with pages
`[home, about, contact]` and `includeAdmin := true` yields exactly six
files — index.html, styles.css, script.js, about.html, contact.html,
admin.html — each equal to its step's static fallback content, plus
fallback SEO metadata derived only from the prompt (title is the first 60
characters of the prompt, description is the prompt itself). -/
theorem claim_C4_allfail_six_files (provider : Nat → Except String String)
    (now : Nat) (prompt : String) (language : Language)
    (selectedOptions : List String) (referenceUrl : Option String)
    (g : GenState) (hfail : ∀ n, ∃ e, provider n = Except.error e) :
    (generateWebsite provider now prompt language WebsiteType.website
        ["home", "about", "contact"] selectedOptions true referenceUrl g).1 =
      Except.ok
        ⟨[⟨"index.html", generateFallbackHTML prompt language, "html"⟩,
          ⟨"styles.css", generateFallbackCSS, "css"⟩,
          ⟨"script.js", generateFallbackJS, "js"⟩,
          ⟨"about.html", generateFallbackPage "about"
            (mkContext prompt language WebsiteType.website
              ["home", "about", "contact"] selectedOptions true referenceUrl),
            "html"⟩,
          ⟨"contact.html", generateFallbackPage "contact"
            (mkContext prompt language WebsiteType.website
              ["home", "about", "contact"] selectedOptions true referenceUrl),
            "html"⟩,
          ⟨"admin.html", generateFallbackPage "admin"
            (mkContext prompt language WebsiteType.website
              ["home", "about", "contact"] selectedOptions true referenceUrl),
            "html"⟩],
         ⟨strSlice prompt 60, prompt, "website, landing page"⟩⟩ := by
  obtain ⟨g', hw⟩ := generateWebsite_allfail provider now prompt language
    WebsiteType.website ["home", "about", "contact"] selectedOptions true
    referenceUrl g hfail
  rw [hw]
  rfl

theorem claim_C4_witness :
    (generateWebsite (fun _ => Except.error "boom") 0 "my shop" Language.vi
        WebsiteType.website ["home", "about", "contact"] [] true none
        ⟨⟨["k1"], [], 0, 0⟩, 0, [], []⟩).1 =
      Except.ok
        ⟨[⟨"index.html", generateFallbackHTML "my shop" Language.vi, "html"⟩,
          ⟨"styles.css", generateFallbackCSS, "css"⟩,
          ⟨"script.js", generateFallbackJS, "js"⟩,
          ⟨"about.html", generateFallbackPage "about"
            (mkContext "my shop" Language.vi WebsiteType.website
              ["home", "about", "contact"] [] true none), "html"⟩,
          ⟨"contact.html", generateFallbackPage "contact"
            (mkContext "my shop" Language.vi WebsiteType.website
              ["home", "about", "contact"] [] true none), "html"⟩,
          ⟨"admin.html", generateFallbackPage "admin"
            (mkContext "my shop" Language.vi WebsiteType.website
              ["home", "about", "contact"] [] true none), "html"⟩],
         ⟨strSlice "my shop" 60, "my shop", "website, landing page"⟩⟩ :=
  claim_C4_allfail_six_files (fun _ => Except.error "boom") 0 "my shop"
    Language.vi [] none ⟨⟨["k1"], [], 0, 0⟩, 0, [], []⟩
    (fun _ => ⟨"boom", rfl⟩)

/-- C6 counterexample: the extra-page step (`generatePage`) is a
file-producing step, yet an arbitrarily small (1-character) parsable first
output is accepted with zero corrective re-prompts — exactly one prompt is
ever issued — contradicting the claim that every file-producing step
re-issues its request when the first output is under the (markup)
size threshold. -/
theorem claim_C6_counterexample :
    generatePage
        (fun _ => Except.ok
          "\x7b\"path\": \"about.html\", \"content\": \"x\", \"type\": \"html\"\x7d")
        0 "about"
        (mkContext "p" Language.en WebsiteType.website ["about"] [] false none)
        ⟨⟨["k"], [], 0, 0⟩, 0, [], []⟩ =
      (Except.ok ⟨"about.html", "x", "html"⟩,
       ⟨⟨["k"], [], 0, 0⟩, 1,
        [pagePromptText "about"
          (mkContext "p" Language.en WebsiteType.website ["about"] [] false
            none)], []⟩) := rfl

/-- C6 (amended): for the three gated steps — HTML, CSS and JS, with
thresholds 5000, 3000 and 2000 characters — an undersized first parsed
output triggers exactly one corrective re-issue of the same request with
the stricter-instruction suffix appended (never more than one), and a
first output meeting the threshold triggers none and is returned as-is.
The extra-page and SEO steps have no size gate. -/
theorem claim_C6_single_reprompt (provider : Nat → Except String String)
    (now : Nat) (ctx : GenerationContext) (g : GenState) :
    (∀ t r g1, invoke provider now (htmlPromptText ctx) g = (Except.ok t, g1) →
      parseFileResponse t = some r →
      (r.content.length < 5000 →
        (generateHTML provider now ctx g).2.prompts =
          g.prompts ++ [htmlPromptText ctx,
            htmlPromptText ctx ++ htmlStricterSuffix r.content.length]) ∧
      (¬ r.content.length < 5000 →
        (generateHTML provider now ctx g).2.prompts =
          g.prompts ++ [htmlPromptText ctx] ∧
        (generateHTML provider now ctx g).1 = Except.ok r)) ∧
    (∀ hc t r g1, invoke provider now (cssPromptText ctx) g = (Except.ok t, g1) →
      parseFileResponse t = some r →
      (r.content.length < 3000 →
        (generateCSS provider now ctx hc g).2.prompts =
          g.prompts ++ [cssPromptText ctx,
            cssPromptText ctx ++ cssStricterSuffix r.content.length]) ∧
      (¬ r.content.length < 3000 →
        (generateCSS provider now ctx hc g).2.prompts =
          g.prompts ++ [cssPromptText ctx] ∧
        (generateCSS provider now ctx hc g).1 = Except.ok r)) ∧
    (∀ t r g1, invoke provider now (jsPromptText ctx) g = (Except.ok t, g1) →
      parseFileResponse t = some r →
      (r.content.length < 2000 →
        (generateJS provider now ctx g).2.prompts =
          g.prompts ++ [jsPromptText ctx,
            jsPromptText ctx ++ jsStricterSuffix r.content.length]) ∧
      (¬ r.content.length < 2000 →
        (generateJS provider now ctx g).2.prompts =
          g.prompts ++ [jsPromptText ctx] ∧
        (generateJS provider now ctx g).1 = Except.ok r)) := by
  refine ⟨?_, ?_, ?_⟩
  · intro t r g1 hi hp
    have hg1 : g1.prompts = g.prompts ++ [htmlPromptText ctx] := by
      have h' := congrArg (fun x => x.2.prompts) hi
      simpa [invoke] using h'.symm
    constructor
    · intro hlt
      unfold generateHTML
      rw [hi]
      simp only []
      rw [hp]
      simp only []
      rw [if_pos hlt]
      generalize h2 : invoke provider now
        (htmlPromptText ctx ++ htmlStricterSuffix r.content.length) g1 = iv2
      obtain ⟨res2, g2⟩ := iv2
      have hg2 : g2.prompts = g1.prompts ++
          [htmlPromptText ctx ++ htmlStricterSuffix r.content.length] := by
        have h' := congrArg (fun x => x.2.prompts) h2
        simpa [invoke] using h'.symm
      cases res2 with
      | error e => simp only []; rw [hg2, hg1]; simp
      | ok text2 =>
        simp only []
        cases parseFileResponse text2 with
        | none => simp only []; rw [hg2, hg1]; simp
        | some r2 => simp only []; rw [hg2, hg1]; simp
    · intro hge
      unfold generateHTML
      rw [hi]
      simp only []
      rw [hp]
      simp only []
      rw [if_neg hge]
      exact ⟨hg1, rfl⟩
  · intro hc t r g1 hi hp
    have hg1 : g1.prompts = g.prompts ++ [cssPromptText ctx] := by
      have h' := congrArg (fun x => x.2.prompts) hi
      simpa [invoke] using h'.symm
    constructor
    · intro hlt
      unfold generateCSS
      rw [hi]
      simp only []
      rw [hp]
      simp only []
      rw [if_pos hlt]
      generalize h2 : invoke provider now
        (cssPromptText ctx ++ cssStricterSuffix r.content.length) g1 = iv2
      obtain ⟨res2, g2⟩ := iv2
      have hg2 : g2.prompts = g1.prompts ++
          [cssPromptText ctx ++ cssStricterSuffix r.content.length] := by
        have h' := congrArg (fun x => x.2.prompts) h2
        simpa [invoke] using h'.symm
      cases res2 with
      | error e => simp only []; rw [hg2, hg1]; simp
      | ok text2 =>
        simp only []
        cases parseFileResponse text2 with
        | none => simp only []; rw [hg2, hg1]; simp
        | some r2 => simp only []; rw [hg2, hg1]; simp
    · intro hge
      unfold generateCSS
      rw [hi]
      simp only []
      rw [hp]
      simp only []
      rw [if_neg hge]
      exact ⟨hg1, rfl⟩
  · intro t r g1 hi hp
    have hg1 : g1.prompts = g.prompts ++ [jsPromptText ctx] := by
      have h' := congrArg (fun x => x.2.prompts) hi
      simpa [invoke] using h'.symm
    constructor
    · intro hlt
      unfold generateJS
      rw [hi]
      simp only []
      rw [hp]
      simp only []
      rw [if_pos hlt]
      generalize h2 : invoke provider now
        (jsPromptText ctx ++ jsStricterSuffix r.content.length) g1 = iv2
      obtain ⟨res2, g2⟩ := iv2
      have hg2 : g2.prompts = g1.prompts ++
          [jsPromptText ctx ++ jsStricterSuffix r.content.length] := by
        have h' := congrArg (fun x => x.2.prompts) h2
        simpa [invoke] using h'.symm
      cases res2 with
      | error e => simp only []; rw [hg2, hg1]; simp
      | ok text2 =>
        simp only []
        cases parseFileResponse text2 with
        | none => simp only []; rw [hg2, hg1]; simp
        | some r2 => simp only []; rw [hg2, hg1]; simp
    · intro hge
      unfold generateJS
      rw [hi]
      simp only []
      rw [hp]
      simp only []
      rw [if_neg hge]
      exact ⟨hg1, rfl⟩

theorem claim_C6_witness :
    (generateHTML
        (fun _ => Except.ok
          "\x7b\"path\": \"index.html\", \"content\": \"x\", \"type\": \"html\"\x7d")
        0 (mkContext "p" Language.en WebsiteType.landing [] [] false none)
        ⟨⟨["k"], [], 0, 0⟩, 0, [], []⟩).2.prompts =
      [htmlPromptText (mkContext "p" Language.en WebsiteType.landing [] []
          false none),
       htmlPromptText (mkContext "p" Language.en WebsiteType.landing [] []
          false none) ++ htmlStricterSuffix 1] := by
  have h := (claim_C6_single_reprompt
    (fun _ => Except.ok
      "\x7b\"path\": \"index.html\", \"content\": \"x\", \"type\": \"html\"\x7d")
    0 (mkContext "p" Language.en WebsiteType.landing [] [] false none)
    ⟨⟨["k"], [], 0, 0⟩, 0, [], []⟩).1
    "\x7b\"path\": \"index.html\", \"content\": \"x\", \"type\": \"html\"\x7d"
    ⟨"index.html", "x", "html"⟩
    ⟨⟨["k"], [], 0, 0⟩, 1,
     [htmlPromptText (mkContext "p" Language.en WebsiteType.landing [] []
        false none)], []⟩
    rfl rfl
  simpa using h.1 (by decide)

/-- C10: when the corrective re-prompt fires, the second response is parsed
and returned without any size re-validation — an arbitrarily short parsable
second output becomes the step's result, for each of the HTML, CSS and JS
steps. -/
theorem claim_C10_no_revalidation (provider : Nat → Except String String)
    (now : Nat) (ctx : GenerationContext) (g : GenState) :
    (∀ t1 r1 g1 t2 r2 g2,
      invoke provider now (htmlPromptText ctx) g = (Except.ok t1, g1) →
      parseFileResponse t1 = some r1 → r1.content.length < 5000 →
      invoke provider now
        (htmlPromptText ctx ++ htmlStricterSuffix r1.content.length) g1 =
        (Except.ok t2, g2) →
      parseFileResponse t2 = some r2 →
      generateHTML provider now ctx g = (Except.ok r2, g2)) ∧
    (∀ hc t1 r1 g1 t2 r2 g2,
      invoke provider now (cssPromptText ctx) g = (Except.ok t1, g1) →
      parseFileResponse t1 = some r1 → r1.content.length < 3000 →
      invoke provider now
        (cssPromptText ctx ++ cssStricterSuffix r1.content.length) g1 =
        (Except.ok t2, g2) →
      parseFileResponse t2 = some r2 →
      generateCSS provider now ctx hc g = (Except.ok r2, g2)) ∧
    (∀ t1 r1 g1 t2 r2 g2,
      invoke provider now (jsPromptText ctx) g = (Except.ok t1, g1) →
      parseFileResponse t1 = some r1 → r1.content.length < 2000 →
      invoke provider now
        (jsPromptText ctx ++ jsStricterSuffix r1.content.length) g1 =
        (Except.ok t2, g2) →
      parseFileResponse t2 = some r2 →
      generateJS provider now ctx g = (Except.ok r2, g2)) := by
  refine ⟨?_, ?_, ?_⟩
  · intro t1 r1 g1 t2 r2 g2 hi hp hlt h2 hp2
    unfold generateHTML
    rw [hi]
    simp only []
    rw [hp]
    simp only []
    rw [if_pos hlt, h2]
    simp only []
    rw [hp2]
  · intro hc t1 r1 g1 t2 r2 g2 hi hp hlt h2 hp2
    unfold generateCSS
    rw [hi]
    simp only []
    rw [hp]
    simp only []
    rw [if_pos hlt, h2]
    simp only []
    rw [hp2]
  · intro t1 r1 g1 t2 r2 g2 hi hp hlt h2 hp2
    unfold generateJS
    rw [hi]
    simp only []
    rw [hp]
    simp only []
    rw [if_pos hlt, h2]
    simp only []
    rw [hp2]

theorem claim_C10_witness :
    generateJS
        (fun _ => Except.ok
          "\x7b\"path\": \"script.js\", \"content\": \"y\", \"type\": \"js\"\x7d")
        0 (mkContext "p" Language.en WebsiteType.landing [] [] false none)
        ⟨⟨["k"], [], 0, 0⟩, 0, [], []⟩ =
      (Except.ok ⟨"script.js", "y", "js"⟩,
       ⟨⟨["k"], [], 0, 0⟩, 2,
        [jsPromptText (mkContext "p" Language.en WebsiteType.landing [] []
            false none),
         jsPromptText (mkContext "p" Language.en WebsiteType.landing [] []
            false none) ++ jsStricterSuffix 1], []⟩) :=
  (claim_C10_no_revalidation
    (fun _ => Except.ok
      "\x7b\"path\": \"script.js\", \"content\": \"y\", \"type\": \"js\"\x7d")
    0 (mkContext "p" Language.en WebsiteType.landing [] [] false none)
    ⟨⟨["k"], [], 0, 0⟩, 0, [], []⟩).2.2
    "\x7b\"path\": \"script.js\", \"content\": \"y\", \"type\": \"js\"\x7d"
    ⟨"script.js", "y", "js"⟩
    ⟨⟨["k"], [], 0, 0⟩, 1,
     [jsPromptText (mkContext "p" Language.en WebsiteType.landing [] []
        false none)], []⟩
    "\x7b\"path\": \"script.js\", \"content\": \"y\", \"type\": \"js\"\x7d"
    ⟨"script.js", "y", "js"⟩
    ⟨⟨["k"], [], 0, 0⟩, 2,
     [jsPromptText (mkContext "p" Language.en WebsiteType.landing [] []
        false none),
      jsPromptText (mkContext "p" Language.en WebsiteType.landing [] []
        false none) ++ jsStricterSuffix 1], []⟩
    rfl rfl (by decide) rfl rfl

end Gemini
